import Mathlib

/-!
# Verification of the HotDog snake-game simulation core

This development shallowly embeds the simulation logic of the repository's two
near-duplicate game implementations — `src/index.tsx` (namespace `IndexTsx`) and
`src/unnamed/part_000` (namespace `Part000`) — and settles the frozen claims
about them.

Modelling conventions:
* JS integer grid coordinates are `Int`; scores and millisecond timestamps are `Int`.
* `timeLeftRef` holds fractional seconds in the source, but every value it ever
  takes is a whole number of milliseconds (25 s minus integer-millisecond
  decrements), so it is represented exactly as `timeLeftMs : Int`.
* `Math.random()` draws are supplied by explicit oracles: `Math.floor(Math.random()*30)`
  becomes a `Fin 30` stream, boolean threshold tests become `Bool` fields.
* React `useState` setters and their mirror refs are collapsed into one field each;
  purely visual/audio calls (meshes, particles, sounds) are dropped, since they
  never feed back into simulation state.
* `Date.now()` is an explicit `now : Int` parameter, read once per handler.
-/

/-- Grid cell, `type Position = { x: number; z: number }`. -/
structure Position where
  x : Int
  z : Int
deriving DecidableEq, Repr

/-- `type GameState = 'START' | 'PLAYING' | 'PAUSED' | 'LEVEL_TRANSITION' | 'GAME_OVER'`. -/
inductive GState where
  | START
  | PLAYING
  | PAUSED
  | LEVEL_TRANSITION
  | GAME_OVER
deriving DecidableEq, Repr

/-- `type PowerUpType = 'MUSTARD' | 'GHOST' | 'BURGER'`. -/
inductive PowerUpType where
  | MUSTARD
  | GHOST
  | BURGER
deriving DecidableEq, Repr

/-- `type FoodType = 'HOTDOG' | 'FRIES'`. -/
inductive FoodType where
  | HOTDOG
  | FRIES
deriving DecidableEq, Repr

/-- `interface FoodItem { x, z, type }` (the visual mesh handle is dropped). -/
structure FoodItem where
  x : Int
  z : Int
  type : FoodType
deriving DecidableEq, Repr

/-- `interface PowerUp { x, z, type }`. -/
structure PowerUp where
  x : Int
  z : Int
  type : PowerUpType
deriving DecidableEq, Repr

/-- `interface HighScore { name: string; score: number }`. -/
structure HighScore where
  name : String
  score : Int
deriving DecidableEq, Repr

/-- One candidate cell drawn by `getRandomPosition`:
`{ x: Math.floor(Math.random() * GRID_SIZE) - GRID_SIZE / 2, z: ... }` with
`GRID_SIZE = 30`; the two `Math.floor(Math.random()*30)` draws for attempt `i`
are supplied by the oracle `rand`. -/
def candidateCell (rand : Nat → Fin 30 × Fin 30) (i : Nat) : Position :=
  ⟨((rand i).1 : Int) - 15, ((rand i).2 : Int) - 15⟩

/-- Occupancy test `occupied.some(p => p.x === pos.x && p.z === pos.z)`. -/
def cellOccupied (occupied : List Position) (pos : Position) : Bool :=
  occupied.any fun p => p.x == pos.x && p.z == pos.z

/-- The do/while loop of `getRandomPosition`, as recursion on the remaining
retry budget: attempt `i` draws `candidateCell rand i`; the loop continues while
the candidate is occupied and fewer than 100 attempts were made, so with `fuel = 0`
(the 100th attempt) the candidate is returned regardless. -/
def getRandomPositionGo (rand : Nat → Fin 30 × Fin 30) (occupied : List Position) :
    Nat → Nat → Position
  | i, 0 => candidateCell rand i
  | i, fuel + 1 =>
    let pos := candidateCell rand i
    if cellOccupied occupied pos then getRandomPositionGo rand occupied (i + 1) fuel
    else pos

/-- `const getRandomPosition = (occupied) => { ... do { pos = ...; tries++ } while
(occupied.some(...) && tries < 100); return pos }` — identical in both source files. -/
def getRandomPosition (rand : Nat → Fin 30 × Fin 30) (occupied : List Position) : Position :=
  getRandomPositionGo rand occupied 0 99

lemma getRandomPositionGo_exists (rand : Nat → Fin 30 × Fin 30) (occupied : List Position) :
    ∀ fuel i, ∃ j, i ≤ j ∧ j ≤ i + fuel ∧
      getRandomPositionGo rand occupied i fuel = candidateCell rand j := by
  intro fuel
  induction fuel with
  | zero => intro i; exact ⟨i, le_refl i, by omega, rfl⟩
  | succ n ih =>
    intro i
    unfold getRandomPositionGo
    by_cases h : cellOccupied occupied (candidateCell rand i)
    · simp only [h, if_true]
      obtain ⟨j, h1, h2, h3⟩ := ih (i + 1)
      exact ⟨j, by omega, by omega, h3⟩
    · simp only [h, if_false]
      exact ⟨i, le_refl i, by omega, rfl⟩

lemma candidateCell_bounds (rand : Nat → Fin 30 × Fin 30) (i : Nat) :
    -15 ≤ (candidateCell rand i).x ∧ (candidateCell rand i).x ≤ 14 ∧
    -15 ≤ (candidateCell rand i).z ∧ (candidateCell rand i).z ≤ 14 := by
  have h1 : ((rand i).1 : Nat) < 30 := (rand i).1.isLt
  have h2 : ((rand i).2 : Nat) < 30 := (rand i).2.isLt
  dsimp only [candidateCell]
  refine ⟨?_, ?_, ?_, ?_⟩ <;> omega

lemma getRandomPositionGo_exhausted (rand : Nat → Fin 30 × Fin 30) (occupied : List Position) :
    ∀ fuel i, (∀ j, cellOccupied occupied (candidateCell rand j) = true) →
      getRandomPositionGo rand occupied i fuel = candidateCell rand (i + fuel) := by
  intro fuel
  induction fuel with
  | zero => intro i _; rfl
  | succ n ih =>
    intro i hall
    unfold getRandomPositionGo
    simp only [hall i, if_true]
    rw [ih (i + 1) hall]
    congr 1
    omega

/-- C10: `getRandomPosition` returns one of at most 100 drawn candidates (so the
loop performs at most 100 iterations); on exhaustion — every candidate occupied —
it accepts the 100th (possibly occupied) candidate; and the returned coordinates
always lie in `[-15, 14]` on both axes, so in particular no spawn is ever placed
on a cell with `x = 15` or `z = 15`. -/
theorem getRandomPosition_terminates_and_bounded (rand : Nat → Fin 30 × Fin 30)
    (occupied : List Position) :
    (∃ j, j ≤ 99 ∧ getRandomPosition rand occupied = candidateCell rand j) ∧
    ((∀ j, cellOccupied occupied (candidateCell rand j) = true) →
      getRandomPosition rand occupied = candidateCell rand 99) ∧
    (-15 ≤ (getRandomPosition rand occupied).x ∧ (getRandomPosition rand occupied).x ≤ 14 ∧
     -15 ≤ (getRandomPosition rand occupied).z ∧ (getRandomPosition rand occupied).z ≤ 14) ∧
    (getRandomPosition rand occupied).x ≠ 15 ∧ (getRandomPosition rand occupied).z ≠ 15 := by
  obtain ⟨j, hij, hj, heq⟩ := getRandomPositionGo_exists rand occupied 99 0
  refine ⟨⟨j, by omega, heq⟩, ?_, ?_, ?_, ?_⟩
  · intro hall
    exact getRandomPositionGo_exhausted rand occupied 99 0 hall
  · rw [getRandomPosition] at *
    rw [heq]
    exact candidateCell_bounds rand j
  · rw [getRandomPosition] at *
    rw [heq]
    have := candidateCell_bounds rand j
    omega
  · rw [getRandomPosition] at *
    rw [heq]
    have := candidateCell_bounds rand j
    omega

/-- Witness for C10: with a constant zero oracle and the single occupied cell
`(-15,-15)`, every candidate is occupied, so the exhaustion branch fires and the
result is still the in-bounds cell `(-15,-15)`. -/
theorem getRandomPosition_terminates_and_bounded_witness :
    getRandomPosition (fun _ => ((0 : Fin 30), (0 : Fin 30))) [⟨-15, -15⟩] =
      candidateCell (fun _ => ((0 : Fin 30), (0 : Fin 30))) 99 :=
  (getRandomPosition_terminates_and_bounded (fun _ => ((0 : Fin 30), (0 : Fin 30)))
    [⟨-15, -15⟩]).2.1 (fun _ => rfl)

/-- The simulation-relevant mutable refs/state of one game instance, shared by
both variants (they declare the same refs): `snakeRef`, `directionRef`,
`moveQueueRef`, `foodsRef`, `powerUpRef`, `scoreRef`, `levelRef`,
`timeLeftRef` (in ms), `moveIntervalRef`, `baseLevelSpeedRef`,
`levelStartScoreRef`, `ghostModeEndTimeRef`, `speedBoostEndTimeRef`,
`dogPulseEndTimeRef`, and the `gameState` React state. -/
structure GameSim where
  gameState : GState
  snake : List Position
  direction : Position
  moveQueue : List Position
  foods : List FoodItem
  powerUp : Option PowerUp
  score : Int
  level : Nat
  timeLeftMs : Int
  moveInterval : Int
  baseLevelSpeed : Int
  levelStartScore : Int
  ghostModeEndTime : Int
  speedBoostEndTime : Int
  dogPulseEndTime : Int
deriving DecidableEq, Repr

/-- Oracle supplying the `Math.random()` draws a tick can consume:
`posRand k` is the candidate stream for the `k`-th food spawned this call,
`friesRand k` is `Math.random() < 0.25` for that spawn, `puRand` the power-up
spawn chance test, `puPosRand` the power-up placement stream and `puTypeRand`
the already-bucketed power-up kind draw. -/
structure SpawnOracle where
  posRand : Nat → Nat → Fin 30 × Fin 30
  friesRand : Nat → Bool
  puRand : Bool
  puPosRand : Nat → Fin 30 × Fin 30
  puTypeRand : PowerUpType

/-- Direction applied by a tick: `if (moveQueueRef.current.length > 0)
directionRef.current = moveQueueRef.current.shift()` — identical in both variants. -/
def tickDirection (s : GameSim) : Position :=
  s.moveQueue.headD s.direction

/-- `nextHead = { x: head.x + dir.x, z: head.z + dir.z }` for the tick's applied
direction — identical in both variants. -/
def tickNextHead (s : GameSim) : Position :=
  ⟨(s.snake.headD ⟨0, 0⟩).x + (tickDirection s).x,
   (s.snake.headD ⟨0, 0⟩).z + (tickDirection s).z⟩

/-- Effective tick gate used by `animate` in both variants:
`const currentInterval = isSpeedBoostActive ? 60 : moveIntervalRef.current`
with `isSpeedBoostActive = Date.now() < speedBoostEndTimeRef.current`. -/
def effectiveInterval (now : Int) (s : GameSim) : Int :=
  if now < s.speedBoostEndTime then 60 else s.moveInterval

namespace IndexTsx

/-- Wall test of `src/index.tsx` line 615: `nextHead.x > GRID_SIZE / 2 ||
nextHead.x < -GRID_SIZE / 2 || nextHead.z > GRID_SIZE / 2 || nextHead.z < -GRID_SIZE / 2`
with `GRID_SIZE = 30`. -/
def hitWall (p : Position) : Bool :=
  p.x > 15 || p.x < -15 || p.z > 15 || p.z < -15

/-- Self test of `src/index.tsx` line 616:
`snakeRef.current.some((segment, index) => index !== 0 && segment.x === nextHead.x
&& segment.z === nextHead.z)` — every segment except the head, tail included. -/
def hitSelf (snake : List Position) (p : Position) : Bool :=
  snake.enum.any fun pr => pr.1 != 0 && pr.2.x == p.x && pr.2.z == p.z

/-- Cells treated as occupied inside `spawnFood` of `src/index.tsx`:
`[...snakeRef.current, ...foodsRef.current, ...(powerUpRef.current ? [powerUpRef.current] : [])]`. -/
def occupiedCells (s : GameSim) : List Position :=
  s.snake ++ s.foods.map (fun f => (⟨f.x, f.z⟩ : Position)) ++
    (s.powerUp.map (fun p => (⟨p.x, p.z⟩ : Position))).toList

/-- The `while (foodsRef.current.length < desiredCount)` loop of `spawnFood`
in `src/index.tsx`, with `desiredCount = levelRef.current * 5`; `k` counts spawns
made this call, `fuel` bounds the loop (callers pass `level * 5`, always enough). -/
def spawnFoodLoop (o : SpawnOracle) : Nat → Nat → GameSim → GameSim
  | _, 0, s => s
  | k, fuel + 1, s =>
    if s.foods.length < s.level * 5 then
      let pos := getRandomPosition (o.posRand k) (occupiedCells s)
      let t := if o.friesRand k then FoodType.FRIES else FoodType.HOTDOG
      spawnFoodLoop o (k + 1) fuel { s with foods := s.foods ++ [⟨pos.x, pos.z, t⟩] }
    else s

/-- `spawnPowerUp` of `src/index.tsx`: occupied is snake plus foods (not the old
power-up); kind from the weighted draw; overwrites `powerUpRef`. -/
def spawnPowerUp (o : SpawnOracle) (s : GameSim) : GameSim :=
  let occupied := s.snake ++ s.foods.map (fun f => (⟨f.x, f.z⟩ : Position))
  let pos := getRandomPosition o.puPosRand occupied
  { s with powerUp := some ⟨pos.x, pos.z, o.puTypeRand⟩ }

/-- `spawnFood` of `src/index.tsx`: top up foods to `level * 5`, then
`if (!powerUpRef.current && Math.random() < 0.3) spawnPowerUp()`. -/
def spawnFood (o : SpawnOracle) (s : GameSim) : GameSim :=
  let s1 := spawnFoodLoop o 0 (s.level * 5) s
  if s1.powerUp.isNone && o.puRand then spawnPowerUp o s1 else s1

/-- Step 5 of `updateGameLogic` in `src/index.tsx` (lines 661–686), run after
`snakeRef.current = newSnake`: any power-up at `nextHead` awards 500 points
(`setScore(s => s + 500)` fires for EVERY kind) and applies its kind's timers
(GHOST: 10 s ghost expiry; BURGER: 8 s boost expiry and 1 s pulse; MUSTARD:
nothing further), then clears the power-up. -/
def powerUpStep (now : Int) (nextHead : Position) (s : GameSim) : GameSim :=
  match s.powerUp with
  | some p =>
    if p.x == nextHead.x && p.z == nextHead.z then
      let s := { s with score := s.score + 500 }
      let s :=
        match p.type with
        | PowerUpType.MUSTARD => s
        | PowerUpType.GHOST => { s with ghostModeEndTime := now + 10000 }
        | PowerUpType.BURGER =>
          { s with speedBoostEndTime := now + 8000, dogPulseEndTime := now + 1000 }
      { s with powerUp := none }
    else s
  | none => s

/-- Step 6 of `updateGameLogic` in `src/index.tsx` (lines 688–694):
`timeLeftRef.current -= moveIntervalRef.current / 1000` (here in ms — note the
decrement is the BASE interval, not the boost-gated effective interval), and a
non-positive countdown enters LEVEL_TRANSITION via `nextLevel()`. -/
def timerStep (s : GameSim) : GameSim :=
  let s := { s with timeLeftMs := s.timeLeftMs - s.moveInterval }
  if s.timeLeftMs ≤ 0 then { s with gameState := GState.LEVEL_TRANSITION } else s

/-- Steps 5–6 of `updateGameLogic` in `src/index.tsx` combined. -/
def afterMove (now : Int) (nextHead : Position) (s : GameSim) : GameSim :=
  timerStep (powerUpStep now nextHead s)

/-- `updateGameLogic` of `src/index.tsx` (lines 603–697): drain one queued
direction, compute `nextHead`, crash to GAME_OVER on wall or non-ghost self hit,
otherwise move; a food at `nextHead` scores 100/150, tightens the interval
(floored at 50), is removed and replenished via `spawnFood` (with `snakeRef`
still the pre-move snake, as in the source); otherwise the tail is popped; then
power-up collision and the timer run via `afterMove`. -/
def updateGameLogic (o : SpawnOracle) (now : Int) (s : GameSim) : GameSim :=
  let dir := tickDirection s
  let s := { s with direction := dir, moveQueue := s.moveQueue.tail }
  let nextHead := ⟨(s.snake.headD ⟨0, 0⟩).x + dir.x, (s.snake.headD ⟨0, 0⟩).z + dir.z⟩
  if hitWall nextHead || (hitSelf s.snake nextHead && decide (now > s.ghostModeEndTime)) then
    { s with gameState := GState.GAME_OVER }
  else
    let newSnake := nextHead :: s.snake
    match s.foods.findIdx? (fun f => f.x == nextHead.x && f.z == nextHead.z) with
    | some i =>
      let eaten := s.foods.getD i ⟨0, 0, FoodType.HOTDOG⟩
      let pts : Int := if eaten.type = FoodType.FRIES then 150 else 100
      let s1 := { s with score := s.score + pts,
                         moveInterval := max 50 (s.moveInterval - 2),
                         foods := s.foods.eraseIdx i }
      let s2 := spawnFood o s1
      afterMove now nextHead { s2 with snake := newSnake }
    | none =>
      afterMove now nextHead { s with snake := newSnake.dropLast }

/-- `resetGame(fullReset)` of `src/index.tsx`: enter PLAYING, optionally clear
the full-run state (note `ghostModeEndTime`/`speedBoostEndTime` are reset only
on a FULL reset), reset direction/queue/snake, clear foods and power-up, and
respawn food. -/
def resetGame (o : SpawnOracle) (fullReset : Bool) (s : GameSim) : GameSim :=
  let s := { s with gameState := GState.PLAYING }
  let s :=
    if fullReset then
      { s with score := 0, level := 1, timeLeftMs := 25000, moveInterval := 200,
               baseLevelSpeed := 200, levelStartScore := 0,
               ghostModeEndTime := 0, speedBoostEndTime := 0 }
    else s
  let s := { s with direction := ⟨0, -1⟩, moveQueue := [],
                    snake := [⟨0, 2⟩, ⟨0, 3⟩, ⟨0, 4⟩],
                    foods := [], powerUp := none }
  spawnFood o s

/-- `retryLevel()` of `src/index.tsx` (lines 729–744): restore the level-start
score snapshot, reset the timer, set the interval back to the level base, then
`resetGame(false)` and PLAYING. -/
def retryLevel (o : SpawnOracle) (s : GameSim) : GameSim :=
  let s := { s with score := s.levelStartScore, timeLeftMs := 25000,
                    moveInterval := s.baseLevelSpeed }
  let s := resetGame o false s
  { s with gameState := GState.PLAYING }

/-- The body of the 4000 ms `setTimeout` scheduled by `nextLevel()` in
`src/index.tsx`: increment the level, lower the base speed (floored at 50),
reset the timer, snapshot the score, `resetGame(false)` and return to PLAYING —
with no check of the current game state. -/
def nextLevelTimeout (o : SpawnOracle) (s : GameSim) : GameSim :=
  let base := max 50 (s.baseLevelSpeed - 15)
  let s := { s with level := s.level + 1, baseLevelSpeed := base, moveInterval := base,
                    timeLeftMs := 25000, levelStartScore := s.score }
  let s := resetGame o false s
  { s with gameState := GState.PLAYING }

/-- Immediate part of `nextLevel()` in `src/index.tsx`: the transition to
LEVEL_TRANSITION (the rest is the deferred `nextLevelTimeout`). -/
def nextLevelImmediate (s : GameSim) : GameSim :=
  { s with gameState := GState.LEVEL_TRANSITION }

/-- Direction-key branch of `handleKeyDown` in `src/index.tsx` (lines 1321–1342):
only while PLAYING; validate against the last queued (else current) direction,
drop exact 180° reversals, and enqueue only while fewer than 3 moves are queued. -/
def enqueueDirection (s : GameSim) (nextDir : Position) : GameSim :=
  if s.gameState ≠ GState.PLAYING then s
  else
    let lastMove := s.moveQueue.getLastD s.direction
    if nextDir.x ≠ -lastMove.x ∨ nextDir.z ≠ -lastMove.z then
      if s.moveQueue.length < 3 then { s with moveQueue := s.moveQueue ++ [nextDir] }
      else s
    else s

/-- Touch-control `onPointerDown` handlers of `src/index.tsx` (lines 1488–1492):
`() => moveQueueRef.current.push({...})` — an unconditional push, with no state
guard, no reversal validation and no capacity check. -/
def touchEnqueue (s : GameSim) (d : Position) : GameSim :=
  { s with moveQueue := s.moveQueue ++ [d] }

end IndexTsx

namespace Part000

/-- Wall test of `src/unnamed/part_000` line 663: `newHead.x < -GRID_SIZE / 2 ||
newHead.x >= GRID_SIZE / 2 || newHead.z < -GRID_SIZE / 2 || newHead.z >= GRID_SIZE / 2`
— the half-open range `[-15, 15)`. -/
def hitWall (p : Position) : Bool :=
  p.x < -15 || p.x ≥ 15 || p.z < -15 || p.z ≥ 15

/-- Self test of `src/unnamed/part_000` line 670:
`snakeRef.current.some((p, i) => i !== snakeRef.current.length - 1 && ...)` —
every segment except the LAST one (the tail, which will vacate its cell). -/
def hitSelf (snake : List Position) (p : Position) : Bool :=
  snake.enum.any fun pr => pr.1 != snake.length - 1 && pr.2.x == p.x && pr.2.z == p.z

/-- Cells treated as occupied inside `spawnFood` of `part_000`:
`[...snakeRef.current, ...foodsRef.current]` plus the live power-up if any. -/
def occupiedCells (s : GameSim) : List Position :=
  s.snake ++ s.foods.map (fun f => (⟨f.x, f.z⟩ : Position)) ++
    (s.powerUp.map (fun p => (⟨p.x, p.z⟩ : Position))).toList

/-- `spawnFood(count)` of `part_000` (lines 778–825): a `for` loop spawning
exactly `count` foods, each on a `getRandomPosition` cell with a 25% fries draw. -/
def spawnFoodGo (o : SpawnOracle) : Nat → Nat → GameSim → GameSim
  | _, 0, s => s
  | k, c + 1, s =>
    let pos := getRandomPosition (o.posRand k) (occupiedCells s)
    let t := if o.friesRand k then FoodType.FRIES else FoodType.HOTDOG
    spawnFoodGo o (k + 1) c { s with foods := s.foods ++ [⟨pos.x, pos.z, t⟩] }

/-- `spawnPowerUp` of `part_000` (lines 827–873): `if (Math.random() > 0.3) return`,
otherwise place a uniformly-drawn kind on a `getRandomPosition` cell (occupied =
snake plus foods), overwriting any live power-up. -/
def spawnPowerUp (o : SpawnOracle) (s : GameSim) : GameSim :=
  if !o.puRand then s
  else
    let occupied := s.snake ++ s.foods.map (fun f => (⟨f.x, f.z⟩ : Position))
    let pos := getRandomPosition o.puPosRand occupied
    { s with powerUp := some ⟨pos.x, pos.z, o.puTypeRand⟩ }

/-- `handlePowerUp(type)` of `part_000` (lines 760–775): MUSTARD +500 points;
GHOST sets a 10 s ghost expiry and +200 points; BURGER +300 points, an 8 s boost
expiry and a 2 s pulse. -/
def handlePowerUp (now : Int) (t : PowerUpType) (s : GameSim) : GameSim :=
  match t with
  | PowerUpType.MUSTARD => { s with score := s.score + 500 }
  | PowerUpType.GHOST => { s with ghostModeEndTime := now + 10000, score := s.score + 200 }
  | PowerUpType.BURGER =>
    { s with score := s.score + 300, speedBoostEndTime := now + 8000,
             dogPulseEndTime := now + 2000 }

/-- Power-up collision check of `updateGameLogic` in `part_000` (lines 722–749):
a live power-up at `newHead` is consumed via `handlePowerUp` and cleared. -/
def powerUpStep (now : Int) (newHead : Position) (s : GameSim) : GameSim :=
  match s.powerUp with
  | some p =>
    if p.x == newHead.x && p.z == newHead.z then
      { handlePowerUp now p.type s with powerUp := none }
    else s
  | none => s

/-- Tail end of `updateGameLogic` in `part_000`: power-up collision, then
`if (!grown) newSnake.pop()`, then the `snakeRef.current = newSnake` assignment. -/
def afterMove (now : Int) (newHead : Position) (grown : Bool) (newSnake : List Position)
    (s : GameSim) : GameSim :=
  let s := powerUpStep now newHead s
  if grown then { s with snake := newSnake }
  else { s with snake := newSnake.dropLast }

/-- `updateGameLogic` of `src/unnamed/part_000` (lines 644–758): the countdown
drops by a fixed 0.1 s first and a non-positive value enters LEVEL_TRANSITION via
`finishLevel()` before any movement; then one queued direction is drained, walls
(half-open bounds) and non-ghost self hits (tail excluded) crash to GAME_OVER;
a food at `newHead` scores 100/150, tightens the interval (floored at 50), is
removed, one replacement is spawned and a power-up spawn is rolled; the tail is
popped unless the snake grew. -/
def updateGameLogic (o : SpawnOracle) (now : Int) (s : GameSim) : GameSim :=
  let s := { s with timeLeftMs := s.timeLeftMs - 100 }
  if s.timeLeftMs ≤ 0 then { s with gameState := GState.LEVEL_TRANSITION }
  else
    let dir := tickDirection s
    let s := { s with direction := dir, moveQueue := s.moveQueue.tail }
    let newHead := ⟨(s.snake.headD ⟨0, 0⟩).x + dir.x, (s.snake.headD ⟨0, 0⟩).z + dir.z⟩
    if hitWall newHead then { s with gameState := GState.GAME_OVER }
    else if !(decide (now < s.ghostModeEndTime)) && hitSelf s.snake newHead then
      { s with gameState := GState.GAME_OVER }
    else
      let newSnake := newHead :: s.snake
      match s.foods.findIdx? (fun f => f.x == newHead.x && f.z == newHead.z) with
      | some i =>
        let eaten := s.foods.getD i ⟨0, 0, FoodType.HOTDOG⟩
        let pts : Int := if eaten.type = FoodType.FRIES then 150 else 100
        let s1 := { s with score := s.score + pts,
                           moveInterval := max 50 (s.moveInterval - 2),
                           foods := s.foods.eraseIdx i }
        let s2 := spawnFoodGo o 0 1 s1
        let s3 := spawnPowerUp o s2
        afterMove now newHead true newSnake s3
      | none =>
        afterMove now newHead false newSnake s

/-- `retryLevel()` of `part_000` (lines 1296–1319): PLAYING, restore the score
snapshot, reset the snake to a single segment at the origin, clear the queue,
reset timer and interval to the level base, clear and respawn `level * 5` foods.
The ghost/boost expiry refs are NOT touched. -/
def retryLevel (o : SpawnOracle) (s : GameSim) : GameSim :=
  let s := { s with gameState := GState.PLAYING, score := s.levelStartScore,
                    snake := [⟨0, 0⟩], direction := ⟨0, -1⟩, moveQueue := [],
                    timeLeftMs := 25000, moveInterval := s.baseLevelSpeed,
                    foods := [] }
  spawnFoodGo o 0 (s.level * 5) s

/-- `resetGame(lvl)` of `part_000` (lines 1321–1368): set the level, snapshot or
zero the score, reset snake/direction/queue/timer, recompute the base speed as
`Math.max(80, 200 - (lvl - 1) * 20)`, clear the status-effect timers, and spawn
`lvl * 5` foods. -/
def resetGame (o : SpawnOracle) (lvl : Nat) (s : GameSim) : GameSim :=
  let s := { s with level := lvl }
  let s :=
    if lvl = 1 then { s with score := 0, levelStartScore := 0 }
    else { s with levelStartScore := s.score }
  let base : Int := max 80 (200 - ((lvl : Int) - 1) * 20)
  let s := { s with snake := [⟨0, 0⟩], direction := ⟨0, -1⟩, moveQueue := [],
                    timeLeftMs := 25000, baseLevelSpeed := base, moveInterval := base,
                    ghostModeEndTime := 0, speedBoostEndTime := 0, dogPulseEndTime := 0,
                    foods := [] }
  spawnFoodGo o 0 (lvl * 5) s

/-- `startLevel(lvl)` of `part_000`: `setGameState('PLAYING'); resetGame(lvl)`. -/
def startLevel (o : SpawnOracle) (lvl : Nat) (s : GameSim) : GameSim :=
  resetGame o lvl { s with gameState := GState.PLAYING }

/-- The body of the 3000 ms `setTimeout` scheduled by `finishLevel()` in
`part_000`: `startLevel(levelRef.current + 1)` — with no check of the current
game state. -/
def startLevelTimeout (o : SpawnOracle) (s : GameSim) : GameSim :=
  startLevel o (s.level + 1) s

/-- Immediate part of `finishLevel()` in `part_000`: enter LEVEL_TRANSITION. -/
def finishLevelImmediate (s : GameSim) : GameSim :=
  { s with gameState := GState.LEVEL_TRANSITION }

/-- Direction validation shared verbatim by `handleKeyDown` and `handleTouch` in
`part_000` (lines 1406–1428 and 1431–1447): only while PLAYING; take the last
queued (else current) direction and silently drop the intent when it shares a
nonzero axis with it (which covers 180° reversals AND same-direction repeats);
otherwise push — with NO capacity limit. -/
def handleDirectionInput (s : GameSim) (intent : Position) : GameSim :=
  if s.gameState ≠ GState.PLAYING then s
  else
    let lastMove := s.moveQueue.getLastD s.direction
    if lastMove.x ≠ 0 ∧ intent.x ≠ 0 then s
    else if lastMove.z ≠ 0 ∧ intent.z ≠ 0 then s
    else { s with moveQueue := s.moveQueue ++ [intent] }

end Part000

/-- The high-score load in the initialization effect of both variants
(`src/index.tsx` 348–349, `part_000` 369–370):
`const stored = localStorage.getItem('hotdog_highscores'); if (stored)
setHighScores(JSON.parse(stored));` — there is no try/catch, so a parse
exception propagates out of the effect. `parse` abstracts `JSON.parse`
(an `Except.error` is a thrown `SyntaxError`), `stored` is the read value
(`none` for an absent key), and the result is the startup outcome: `ok` the
loaded list, `error` an uncaught exception. -/
def loadHighScores (parse : String → Except String (List HighScore))
    (stored : Option String) : Except String (List HighScore) :=
  match stored with
  | none => Except.ok []
  | some str => parse str

/-- A fixed spawn oracle for concrete executions: every coordinate draw is 0
(candidate cell `(-15,-15)`), every kind draw is the default branch, and the
power-up spawn chance never fires. -/
def o0 : SpawnOracle where
  posRand := fun _ _ => ((0 : Fin 30), (0 : Fin 30))
  friesRand := fun _ => false
  puRand := false
  puPosRand := fun _ => ((0 : Fin 30), (0 : Fin 30))
  puTypeRand := PowerUpType.MUSTARD

/-- A freshly-started `index.tsx` game (the state after `resetGame(true)` with
the initial snake of `resetGame`), used as the base of concrete scenarios. -/
def baseState : GameSim where
  gameState := GState.PLAYING
  snake := [⟨0, 2⟩, ⟨0, 3⟩, ⟨0, 4⟩]
  direction := ⟨0, -1⟩
  moveQueue := []
  foods := []
  powerUp := none
  score := 0
  level := 1
  timeLeftMs := 25000
  moveInterval := 200
  baseLevelSpeed := 200
  levelStartScore := 0
  ghostModeEndTime := 0
  speedBoostEndTime := 0
  dogPulseEndTime := 0

section SpawnLemmas

lemma IndexTsx.spawnFoodLoop_fields (o : SpawnOracle) :
    ∀ fuel k s, ∃ fs, IndexTsx.spawnFoodLoop o k fuel s = { s with foods := fs } := by
  intro fuel
  induction fuel with
  | zero => intro k s; exact ⟨s.foods, rfl⟩
  | succ n ih =>
    intro k s
    unfold IndexTsx.spawnFoodLoop
    by_cases h : s.foods.length < s.level * 5
    · simp only [if_pos h]
      obtain ⟨fs, hfs⟩ := ih (k + 1)
        { s with foods := s.foods ++
            [⟨(getRandomPosition (o.posRand k) (IndexTsx.occupiedCells s)).x,
              (getRandomPosition (o.posRand k) (IndexTsx.occupiedCells s)).z,
              if o.friesRand k then FoodType.FRIES else FoodType.HOTDOG⟩] }
      exact ⟨fs, hfs⟩
    · simp only [if_neg h]
      exact ⟨s.foods, rfl⟩

lemma IndexTsx.spawnFoodLoop_done (o : SpawnOracle) (k fuel : Nat) (s : GameSim)
    (h : ¬ s.foods.length < s.level * 5) :
    IndexTsx.spawnFoodLoop o k fuel s = s := by
  cases fuel with
  | zero => rfl
  | succ n => unfold IndexTsx.spawnFoodLoop; simp only [if_neg h]

lemma IndexTsx.spawnFoodLoop_length (o : SpawnOracle) :
    ∀ fuel k s, s.foods.length < s.level * 5 → s.level * 5 ≤ s.foods.length + fuel →
      (IndexTsx.spawnFoodLoop o k fuel s).foods.length = s.level * 5 := by
  intro fuel
  induction fuel with
  | zero => intro k s h1 h2; omega
  | succ n ih =>
    intro k s h1 h2
    unfold IndexTsx.spawnFoodLoop
    simp only [if_pos h1]
    set s' := ({ s with foods := s.foods ++
        [⟨(getRandomPosition (o.posRand k) (IndexTsx.occupiedCells s)).x,
          (getRandomPosition (o.posRand k) (IndexTsx.occupiedCells s)).z,
          if o.friesRand k then FoodType.FRIES else FoodType.HOTDOG⟩] } : GameSim) with hs'
    have hlev : s'.level = s.level := by rw [hs']
    have hlen : s'.foods.length = s.foods.length + 1 := by
      rw [hs']
      simp only [List.length_append, List.length_cons, List.length_nil]
    by_cases h3 : s'.foods.length < s'.level * 5
    · rw [ih (k + 1) s' h3 (by rw [hlen, hlev]; omega), hlev]
    · rw [IndexTsx.spawnFoodLoop_done o _ _ _ h3]
      rw [hlen, hlev] at h3
      rw [hlen]
      omega

lemma IndexTsx.spawnPowerUp_eq (o : SpawnOracle) (s : GameSim) :
    IndexTsx.spawnPowerUp o s =
      { s with powerUp := some (PowerUp.mk
          (getRandomPosition o.puPosRand
            (s.snake ++ s.foods.map (fun f => (⟨f.x, f.z⟩ : Position)))).x
          (getRandomPosition o.puPosRand
            (s.snake ++ s.foods.map (fun f => (⟨f.x, f.z⟩ : Position)))).z
          o.puTypeRand) } := rfl

lemma IndexTsx.spawnFood_fields (o : SpawnOracle) (s : GameSim) :
    ∃ fs pu, IndexTsx.spawnFood o s = { s with foods := fs, powerUp := pu } := by
  unfold IndexTsx.spawnFood
  obtain ⟨fs, hfs⟩ := IndexTsx.spawnFoodLoop_fields o (s.level * 5) 0 s
  rw [hfs]
  by_cases h : (({ s with foods := fs } : GameSim)).powerUp.isNone && o.puRand
  · simp only [if_pos h, IndexTsx.spawnPowerUp_eq]
    exact ⟨fs, _, rfl⟩
  · simp only [if_neg h]
    exact ⟨fs, s.powerUp, rfl⟩

lemma IndexTsx.spawnFood_no_puRand (o : SpawnOracle) (s : GameSim) (h : o.puRand = false) :
    ∃ fs, IndexTsx.spawnFood o s = { s with foods := fs } := by
  unfold IndexTsx.spawnFood
  obtain ⟨fs, hfs⟩ := IndexTsx.spawnFoodLoop_fields o (s.level * 5) 0 s
  rw [hfs, h]
  simp only [Bool.and_false, Bool.false_eq_true, if_false]
  exact ⟨fs, rfl⟩

lemma IndexTsx.spawnFood_length (o : SpawnOracle) (s : GameSim)
    (h : s.foods.length < s.level * 5) :
    (IndexTsx.spawnFood o s).foods.length = s.level * 5 := by
  unfold IndexTsx.spawnFood
  have hlen := IndexTsx.spawnFoodLoop_length o (s.level * 5) 0 s h (by omega)
  obtain ⟨fs, hfs⟩ := IndexTsx.spawnFoodLoop_fields o (s.level * 5) 0 s
  rw [hfs] at hlen ⊢
  by_cases hc : (({ s with foods := fs } : GameSim)).powerUp.isNone && o.puRand
  · simp only [if_pos hc, IndexTsx.spawnPowerUp_eq]
    exact hlen
  · simp only [if_neg hc]
    exact hlen

lemma Part000.spawnFoodGo_fields (o : SpawnOracle) :
    ∀ c k s, ∃ fs, Part000.spawnFoodGo o k c s = { s with foods := fs } := by
  intro c
  induction c with
  | zero => intro k s; exact ⟨s.foods, rfl⟩
  | succ n ih =>
    intro k s
    unfold Part000.spawnFoodGo
    obtain ⟨fs, hfs⟩ := ih (k + 1)
      { s with foods := s.foods ++
          [⟨(getRandomPosition (o.posRand k) (Part000.occupiedCells s)).x,
            (getRandomPosition (o.posRand k) (Part000.occupiedCells s)).z,
            if o.friesRand k then FoodType.FRIES else FoodType.HOTDOG⟩] }
    exact ⟨fs, hfs⟩

lemma Part000.spawnFoodGo_length (o : SpawnOracle) :
    ∀ c k s, (Part000.spawnFoodGo o k c s).foods.length = s.foods.length + c := by
  intro c
  induction c with
  | zero => intro k s; rfl
  | succ n ih =>
    intro k s
    unfold Part000.spawnFoodGo
    rw [ih (k + 1)]
    simp only [List.length_append, List.length_cons, List.length_nil]
    omega

lemma Part000.spawnPowerUp_fields (o : SpawnOracle) (s : GameSim) :
    ∃ pu, Part000.spawnPowerUp o s = { s with powerUp := pu } := by
  unfold Part000.spawnPowerUp
  by_cases h : !o.puRand
  · simp only [if_pos h]
    exact ⟨s.powerUp, rfl⟩
  · simp only [if_neg h]
    exact ⟨_, rfl⟩

lemma Part000.spawnPowerUp_no_puRand (o : SpawnOracle) (s : GameSim) (h : o.puRand = false) :
    Part000.spawnPowerUp o s = s := by
  unfold Part000.spawnPowerUp
  simp only [h, Bool.not_false, if_pos]

end SpawnLemmas

section StepLemmas

lemma IndexTsx.powerUpStep_fields (now : Int) (nh : Position) (s : GameSim) :
    ∃ sc g b pl pu, IndexTsx.powerUpStep now nh s =
      { s with score := sc, ghostModeEndTime := g, speedBoostEndTime := b,
               dogPulseEndTime := pl, powerUp := pu } := by
  obtain ⟨gs, sn, dir, mq, fd, pu, sc, lv, tl, mi, bs, ls, ge, se, de⟩ := s
  cases pu with
  | none => exact ⟨sc, ge, se, de, none, rfl⟩
  | some p =>
    obtain ⟨px, pz, pt⟩ := p
    by_cases hm : (px == nh.x && pz == nh.z) = true
    · cases pt
      · exact ⟨sc + 500, ge, se, de, none, by simp [IndexTsx.powerUpStep, hm]⟩
      · exact ⟨sc + 500, now + 10000, se, de, none, by simp [IndexTsx.powerUpStep, hm]⟩
      · exact ⟨sc + 500, ge, now + 8000, now + 1000, none, by simp [IndexTsx.powerUpStep, hm]⟩
    · rw [Bool.not_eq_true] at hm
      exact ⟨sc, ge, se, de, some ⟨px, pz, pt⟩, by simp [IndexTsx.powerUpStep, hm]⟩

lemma IndexTsx.powerUpStep_none (now : Int) (nh : Position) (s : GameSim)
    (h : s.powerUp = none) : IndexTsx.powerUpStep now nh s = s := by
  obtain ⟨gs, sn, dir, mq, fd, pu, sc, lv, tl, mi, bs, ls, ge, se, de⟩ := s
  cases pu with
  | none => rfl
  | some p => simp at h

lemma IndexTsx.powerUpStep_miss (now : Int) (nh : Position) (s : GameSim) (p : PowerUp)
    (h : s.powerUp = some p) (hm : (p.x == nh.x && p.z == nh.z) = false) :
    IndexTsx.powerUpStep now nh s = s := by
  obtain ⟨gs, sn, dir, mq, fd, pu, sc, lv, tl, mi, bs, ls, ge, se, de⟩ := s
  cases pu with
  | none => rfl
  | some pp =>
    simp only [GameSim.powerUp, Option.some.injEq] at h
    cases h
    simp [IndexTsx.powerUpStep, hm]

lemma IndexTsx.powerUpStep_hit (now : Int) (nh : Position) (s : GameSim) (p : PowerUp)
    (h : s.powerUp = some p) (hm : (p.x == nh.x && p.z == nh.z) = true) :
    IndexTsx.powerUpStep now nh s =
      match p.type with
      | PowerUpType.MUSTARD => { s with score := s.score + 500, powerUp := none }
      | PowerUpType.GHOST =>
        { s with score := s.score + 500, ghostModeEndTime := now + 10000, powerUp := none }
      | PowerUpType.BURGER =>
        { s with score := s.score + 500, speedBoostEndTime := now + 8000,
                 dogPulseEndTime := now + 1000, powerUp := none } := by
  obtain ⟨gs, sn, dir, mq, fd, pu, sc, lv, tl, mi, bs, ls, ge, se, de⟩ := s
  cases pu with
  | none => simp at h
  | some pp =>
    simp only [GameSim.powerUp, Option.some.injEq] at h
    cases h
    obtain ⟨px, pz, pt⟩ := p
    cases pt <;> simp [IndexTsx.powerUpStep, hm]

lemma IndexTsx.timerStep_eq (s : GameSim) :
    IndexTsx.timerStep s =
      (if s.timeLeftMs - s.moveInterval ≤ 0 then
        { s with timeLeftMs := s.timeLeftMs - s.moveInterval,
                 gameState := GState.LEVEL_TRANSITION }
      else { s with timeLeftMs := s.timeLeftMs - s.moveInterval }) := rfl

lemma Part000.p0_powerUpStep_fields (now : Int) (nh : Position) (s : GameSim) :
    ∃ sc g b pl pu, Part000.powerUpStep now nh s =
      { s with score := sc, ghostModeEndTime := g, speedBoostEndTime := b,
               dogPulseEndTime := pl, powerUp := pu } := by
  obtain ⟨gs, sn, dir, mq, fd, pu, sc, lv, tl, mi, bs, ls, ge, se, de⟩ := s
  cases pu with
  | none => exact ⟨sc, ge, se, de, none, rfl⟩
  | some p =>
    obtain ⟨px, pz, pt⟩ := p
    by_cases hm : (px == nh.x && pz == nh.z) = true
    · cases pt
      · exact ⟨sc + 500, ge, se, de, none,
          by simp [Part000.powerUpStep, Part000.handlePowerUp, hm]⟩
      · exact ⟨sc + 200, now + 10000, se, de, none,
          by simp [Part000.powerUpStep, Part000.handlePowerUp, hm]⟩
      · exact ⟨sc + 300, ge, now + 8000, now + 2000, none,
          by simp [Part000.powerUpStep, Part000.handlePowerUp, hm]⟩
    · rw [Bool.not_eq_true] at hm
      exact ⟨sc, ge, se, de, some ⟨px, pz, pt⟩, by simp [Part000.powerUpStep, hm]⟩

lemma Part000.p0_powerUpStep_none (now : Int) (nh : Position) (s : GameSim)
    (h : s.powerUp = none) : Part000.powerUpStep now nh s = s := by
  obtain ⟨gs, sn, dir, mq, fd, pu, sc, lv, tl, mi, bs, ls, ge, se, de⟩ := s
  cases pu with
  | none => rfl
  | some p => simp at h

lemma Part000.p0_powerUpStep_miss (now : Int) (nh : Position) (s : GameSim) (p : PowerUp)
    (h : s.powerUp = some p) (hm : (p.x == nh.x && p.z == nh.z) = false) :
    Part000.powerUpStep now nh s = s := by
  obtain ⟨gs, sn, dir, mq, fd, pu, sc, lv, tl, mi, bs, ls, ge, se, de⟩ := s
  cases pu with
  | none => rfl
  | some pp =>
    simp only [GameSim.powerUp, Option.some.injEq] at h
    cases h
    simp [Part000.powerUpStep, hm]

lemma Part000.p0_powerUpStep_hit (now : Int) (nh : Position) (s : GameSim) (p : PowerUp)
    (h : s.powerUp = some p) (hm : (p.x == nh.x && p.z == nh.z) = true) :
    Part000.powerUpStep now nh s =
      { Part000.handlePowerUp now p.type s with powerUp := none } := by
  obtain ⟨gs, sn, dir, mq, fd, pu, sc, lv, tl, mi, bs, ls, ge, se, de⟩ := s
  cases pu with
  | none => simp at h
  | some pp =>
    simp only [GameSim.powerUp, Option.some.injEq] at h
    cases h
    simp [Part000.powerUpStep, hm]

lemma Part000.afterMove_grown (now : Int) (nh : Position) (ns : List Position) (s : GameSim) :
    Part000.afterMove now nh true ns s = { Part000.powerUpStep now nh s with snake := ns } := rfl

lemma Part000.afterMove_not_grown (now : Int) (nh : Position) (ns : List Position) (s : GameSim) :
    Part000.afterMove now nh false ns s =
      { Part000.powerUpStep now nh s with snake := ns.dropLast } := rfl

end StepLemmas

section TickLemmas

lemma IndexTsx.updateGameLogic_crash (o : SpawnOracle) (now : Int) (s : GameSim)
    (h : (IndexTsx.hitWall (tickNextHead s) ||
          (IndexTsx.hitSelf s.snake (tickNextHead s) && decide (now > s.ghostModeEndTime))) = true) :
    IndexTsx.updateGameLogic o now s =
      { s with direction := tickDirection s, moveQueue := s.moveQueue.tail,
               gameState := GState.GAME_OVER } := by
  obtain ⟨gs, sn, dir, mq, fd, pu, sc, lv, tl, mi, bs, ls, ge, se, de⟩ := s
  simp only [IndexTsx.updateGameLogic, tickNextHead, tickDirection] at h ⊢
  rw [h]
  simp

lemma IndexTsx.updateGameLogic_nofood (o : SpawnOracle) (now : Int) (s : GameSim)
    (h : (IndexTsx.hitWall (tickNextHead s) ||
          (IndexTsx.hitSelf s.snake (tickNextHead s) && decide (now > s.ghostModeEndTime))) = false)
    (hfind : s.foods.findIdx?
      (fun f => f.x == (tickNextHead s).x && f.z == (tickNextHead s).z) = none) :
    IndexTsx.updateGameLogic o now s =
      IndexTsx.afterMove now (tickNextHead s)
        { s with direction := tickDirection s, moveQueue := s.moveQueue.tail,
                 snake := ((tickNextHead s) :: s.snake).dropLast } := by
  obtain ⟨gs, sn, dir, mq, fd, pu, sc, lv, tl, mi, bs, ls, ge, se, de⟩ := s
  simp only [IndexTsx.updateGameLogic, tickNextHead, tickDirection] at h hfind ⊢
  rw [h, hfind]
  rfl

lemma IndexTsx.updateGameLogic_food (o : SpawnOracle) (now : Int) (s : GameSim) (i : Nat)
    (h : (IndexTsx.hitWall (tickNextHead s) ||
          (IndexTsx.hitSelf s.snake (tickNextHead s) && decide (now > s.ghostModeEndTime))) = false)
    (hfind : s.foods.findIdx?
      (fun f => f.x == (tickNextHead s).x && f.z == (tickNextHead s).z) = some i) :
    IndexTsx.updateGameLogic o now s =
      IndexTsx.afterMove now (tickNextHead s)
        { IndexTsx.spawnFood o
            { s with direction := tickDirection s, moveQueue := s.moveQueue.tail,
                     score := s.score +
                       (if (s.foods.getD i ⟨0, 0, FoodType.HOTDOG⟩).type = FoodType.FRIES
                        then (150 : Int) else 100),
                     moveInterval := max 50 (s.moveInterval - 2),
                     foods := s.foods.eraseIdx i } with
          snake := (tickNextHead s) :: s.snake } := by
  obtain ⟨gs, sn, dir, mq, fd, pu, sc, lv, tl, mi, bs, ls, ge, se, de⟩ := s
  simp only [IndexTsx.updateGameLogic, tickNextHead, tickDirection] at h hfind ⊢
  rw [h, hfind]
  rfl

lemma Part000.updateGameLogic_timer (o : SpawnOracle) (now : Int) (s : GameSim)
    (h : s.timeLeftMs - 100 ≤ 0) :
    Part000.updateGameLogic o now s =
      { s with timeLeftMs := s.timeLeftMs - 100, gameState := GState.LEVEL_TRANSITION } := by
  obtain ⟨gs, sn, dir, mq, fd, pu, sc, lv, tl, mi, bs, ls, ge, se, de⟩ := s
  simp only [Part000.updateGameLogic]
  rw [if_pos h]

lemma Part000.updateGameLogic_wall (o : SpawnOracle) (now : Int) (s : GameSim)
    (ht : ¬ s.timeLeftMs - 100 ≤ 0)
    (hw : Part000.hitWall (tickNextHead s) = true) :
    Part000.updateGameLogic o now s =
      { s with timeLeftMs := s.timeLeftMs - 100, direction := tickDirection s,
               moveQueue := s.moveQueue.tail, gameState := GState.GAME_OVER } := by
  obtain ⟨gs, sn, dir, mq, fd, pu, sc, lv, tl, mi, bs, ls, ge, se, de⟩ := s
  simp only [Part000.updateGameLogic, tickNextHead, tickDirection] at hw ⊢
  rw [if_neg ht, hw]
  simp

lemma Part000.updateGameLogic_self (o : SpawnOracle) (now : Int) (s : GameSim)
    (ht : ¬ s.timeLeftMs - 100 ≤ 0)
    (hw : Part000.hitWall (tickNextHead s) = false)
    (hs : (!(decide (now < s.ghostModeEndTime)) && Part000.hitSelf s.snake (tickNextHead s)) = true) :
    Part000.updateGameLogic o now s =
      { s with timeLeftMs := s.timeLeftMs - 100, direction := tickDirection s,
               moveQueue := s.moveQueue.tail, gameState := GState.GAME_OVER } := by
  obtain ⟨gs, sn, dir, mq, fd, pu, sc, lv, tl, mi, bs, ls, ge, se, de⟩ := s
  simp only [Part000.updateGameLogic, tickNextHead, tickDirection] at hw hs ⊢
  rw [if_neg ht, hw, hs]
  simp

lemma Part000.p0_updateGameLogic_nofood (o : SpawnOracle) (now : Int) (s : GameSim)
    (ht : ¬ s.timeLeftMs - 100 ≤ 0)
    (hw : Part000.hitWall (tickNextHead s) = false)
    (hs : (!(decide (now < s.ghostModeEndTime)) && Part000.hitSelf s.snake (tickNextHead s)) = false)
    (hfind : s.foods.findIdx?
      (fun f => f.x == (tickNextHead s).x && f.z == (tickNextHead s).z) = none) :
    Part000.updateGameLogic o now s =
      Part000.afterMove now (tickNextHead s) false ((tickNextHead s) :: s.snake)
        { s with timeLeftMs := s.timeLeftMs - 100, direction := tickDirection s,
                 moveQueue := s.moveQueue.tail } := by
  obtain ⟨gs, sn, dir, mq, fd, pu, sc, lv, tl, mi, bs, ls, ge, se, de⟩ := s
  simp only [Part000.updateGameLogic, tickNextHead, tickDirection] at hw hs hfind ⊢
  rw [if_neg ht, hw, hs, hfind]
  rfl

lemma Part000.p0_updateGameLogic_food (o : SpawnOracle) (now : Int) (s : GameSim) (i : Nat)
    (ht : ¬ s.timeLeftMs - 100 ≤ 0)
    (hw : Part000.hitWall (tickNextHead s) = false)
    (hs : (!(decide (now < s.ghostModeEndTime)) && Part000.hitSelf s.snake (tickNextHead s)) = false)
    (hfind : s.foods.findIdx?
      (fun f => f.x == (tickNextHead s).x && f.z == (tickNextHead s).z) = some i) :
    Part000.updateGameLogic o now s =
      Part000.afterMove now (tickNextHead s) true ((tickNextHead s) :: s.snake)
        (Part000.spawnPowerUp o (Part000.spawnFoodGo o 0 1
          { s with timeLeftMs := s.timeLeftMs - 100, direction := tickDirection s,
                   moveQueue := s.moveQueue.tail,
                   score := s.score +
                     (if (s.foods.getD i ⟨0, 0, FoodType.HOTDOG⟩).type = FoodType.FRIES
                      then (150 : Int) else 100),
                   moveInterval := max 50 (s.moveInterval - 2),
                   foods := s.foods.eraseIdx i })) := by
  obtain ⟨gs, sn, dir, mq, fd, pu, sc, lv, tl, mi, bs, ls, ge, se, de⟩ := s
  simp only [Part000.updateGameLogic, tickNextHead, tickDirection] at hw hs hfind ⊢
  rw [if_neg ht, hw, hs, hfind]
  rfl

end TickLemmas

section AfterMoveLemmas

lemma IndexTsx.afterMove_parts (now : Int) (nh : Position) (s : GameSim) :
    (IndexTsx.afterMove now nh s).snake = s.snake ∧
    (IndexTsx.afterMove now nh s).foods = s.foods ∧
    (IndexTsx.afterMove now nh s).moveInterval = s.moveInterval ∧
    (IndexTsx.afterMove now nh s).level = s.level ∧
    (IndexTsx.afterMove now nh s).timeLeftMs = s.timeLeftMs - s.moveInterval ∧
    (IndexTsx.afterMove now nh s).gameState =
      (if s.timeLeftMs - s.moveInterval ≤ 0 then GState.LEVEL_TRANSITION else s.gameState) ∧
    (IndexTsx.afterMove now nh s).baseLevelSpeed = s.baseLevelSpeed ∧
    (IndexTsx.afterMove now nh s).moveQueue = s.moveQueue ∧
    (IndexTsx.afterMove now nh s).direction = s.direction ∧
    (IndexTsx.afterMove now nh s).levelStartScore = s.levelStartScore := by
  obtain ⟨sc, g, b, pl, pu, hps⟩ := IndexTsx.powerUpStep_fields now nh s
  unfold IndexTsx.afterMove
  rw [hps, IndexTsx.timerStep_eq]
  by_cases hc : s.timeLeftMs - s.moveInterval ≤ 0
  · rw [if_pos hc, if_pos hc]
    exact ⟨rfl, rfl, rfl, rfl, rfl, rfl, rfl, rfl, rfl, rfl⟩
  · rw [if_neg hc, if_neg hc]
    exact ⟨rfl, rfl, rfl, rfl, rfl, rfl, rfl, rfl, rfl, rfl⟩

lemma Part000.p0_afterMove_parts (now : Int) (nh : Position) (grown : Bool)
    (ns : List Position) (s : GameSim) :
    (Part000.afterMove now nh grown ns s).snake = (if grown then ns else ns.dropLast) ∧
    (Part000.afterMove now nh grown ns s).foods = s.foods ∧
    (Part000.afterMove now nh grown ns s).moveInterval = s.moveInterval ∧
    (Part000.afterMove now nh grown ns s).level = s.level ∧
    (Part000.afterMove now nh grown ns s).timeLeftMs = s.timeLeftMs ∧
    (Part000.afterMove now nh grown ns s).gameState = s.gameState ∧
    (Part000.afterMove now nh grown ns s).baseLevelSpeed = s.baseLevelSpeed ∧
    (Part000.afterMove now nh grown ns s).levelStartScore = s.levelStartScore := by
  obtain ⟨sc, g, b, pl, pu, hps⟩ := Part000.p0_powerUpStep_fields now nh s
  unfold Part000.afterMove
  rw [hps]
  cases grown
  · simp
  · simp

end AfterMoveLemmas

section NoCrashLemmas

lemma IndexTsx.afterMove_gameState_or (now : Int) (nh : Position) (x : GameSim) :
    (IndexTsx.afterMove now nh x).gameState = GState.LEVEL_TRANSITION ∨
    (IndexTsx.afterMove now nh x).gameState = x.gameState := by
  have hp := (IndexTsx.afterMove_parts now nh x).2.2.2.2.2.1
  rw [hp]
  split_ifs
  · exact Or.inl rfl
  · exact Or.inr rfl

lemma IndexTsx.updateGameLogic_gameState_no_crash (o : SpawnOracle) (now : Int) (s : GameSim)
    (h : (IndexTsx.hitWall (tickNextHead s) ||
          (IndexTsx.hitSelf s.snake (tickNextHead s) && decide (now > s.ghostModeEndTime))) = false) :
    (IndexTsx.updateGameLogic o now s).gameState = GState.LEVEL_TRANSITION ∨
    (IndexTsx.updateGameLogic o now s).gameState = s.gameState := by
  rcases hfind : s.foods.findIdx?
      (fun f => f.x == (tickNextHead s).x && f.z == (tickNextHead s).z) with _ | i
  · rw [IndexTsx.updateGameLogic_nofood o now s h hfind]
    rcases IndexTsx.afterMove_gameState_or now (tickNextHead s)
      { s with direction := tickDirection s, moveQueue := s.moveQueue.tail,
               snake := ((tickNextHead s) :: s.snake).dropLast } with h1 | h1
    · exact Or.inl h1
    · exact Or.inr h1
  · rw [IndexTsx.updateGameLogic_food o now s i h hfind]
    set s1 : GameSim :=
      { s with direction := tickDirection s, moveQueue := s.moveQueue.tail,
               score := s.score +
                 (if (s.foods.getD i ⟨0, 0, FoodType.HOTDOG⟩).type = FoodType.FRIES
                  then (150 : Int) else 100),
               moveInterval := max 50 (s.moveInterval - 2),
               foods := s.foods.eraseIdx i } with hs1
    rcases IndexTsx.afterMove_gameState_or now (tickNextHead s)
      { IndexTsx.spawnFood o s1 with snake := (tickNextHead s) :: s.snake } with h1 | h1
    · exact Or.inl h1
    · right
      rw [h1]
      obtain ⟨fs, pu, hsp⟩ := IndexTsx.spawnFood_fields o s1
      rw [hsp]

lemma Part000.p0_updateGameLogic_gameState_no_crash (o : SpawnOracle) (now : Int) (s : GameSim)
    (ht : ¬ s.timeLeftMs - 100 ≤ 0)
    (hw : Part000.hitWall (tickNextHead s) = false)
    (hs : (!(decide (now < s.ghostModeEndTime)) && Part000.hitSelf s.snake (tickNextHead s)) = false) :
    (Part000.updateGameLogic o now s).gameState = s.gameState := by
  rcases hfind : s.foods.findIdx?
      (fun f => f.x == (tickNextHead s).x && f.z == (tickNextHead s).z) with _ | i
  · rw [Part000.p0_updateGameLogic_nofood o now s ht hw hs hfind]
    have hp := (Part000.p0_afterMove_parts now (tickNextHead s) false ((tickNextHead s) :: s.snake)
      { s with timeLeftMs := s.timeLeftMs - 100, direction := tickDirection s,
               moveQueue := s.moveQueue.tail }).2.2.2.2.2.1
    rw [hp]
  · rw [Part000.p0_updateGameLogic_food o now s i ht hw hs hfind]
    set s1 : GameSim :=
      { s with timeLeftMs := s.timeLeftMs - 100, direction := tickDirection s,
               moveQueue := s.moveQueue.tail,
               score := s.score +
                 (if (s.foods.getD i ⟨0, 0, FoodType.HOTDOG⟩).type = FoodType.FRIES
                  then (150 : Int) else 100),
               moveInterval := max 50 (s.moveInterval - 2),
               foods := s.foods.eraseIdx i } with hs1
    have hp := (Part000.p0_afterMove_parts now (tickNextHead s) true ((tickNextHead s) :: s.snake)
      (Part000.spawnPowerUp o (Part000.spawnFoodGo o 0 1 s1))).2.2.2.2.2.1
    rw [hp]
    obtain ⟨pu2, hpu2⟩ := Part000.spawnPowerUp_fields o (Part000.spawnFoodGo o 0 1 s1)
    rw [hpu2]
    obtain ⟨fs2, hfs2⟩ := Part000.spawnFoodGo_fields o 1 0 s1
    rw [hfs2]

end NoCrashLemmas

/-- A snake curled so that continuing downward (+z) runs into its own tail cell
`(0,1)`; ghost mode expires at timestamp 5000. -/
def c1state : GameSim :=
  { baseState with snake := [⟨0, 0⟩, ⟨1, 0⟩, ⟨1, 1⟩, ⟨0, 1⟩], direction := ⟨0, 1⟩,
                   ghostModeEndTime := 5000 }

/-- C1 — counterexample. In `src/index.tsx` the self-collision guard is
`Date.now() > ghostModeEndTime` (strict), so on the tick whose timestamp equals
the invulnerability expiry exactly (here `now = 5000 = ghostModeEndTime`, i.e.
`now ≥ t0 + 10000`), a self-intersecting move does NOT end the run, contradicting
the claim that the first self-intersecting tick at or after expiry triggers
GAME_OVER. -/
theorem self_collision_expiry_counterexample :
    IndexTsx.hitSelf c1state.snake (tickNextHead c1state) = true ∧
    (5000 : Int) ≥ c1state.ghostModeEndTime ∧
    (IndexTsx.updateGameLogic o0 5000 c1state).gameState = GState.PLAYING := by
  refine ⟨by decide, by decide, by decide⟩

/-- C1 (amended): while PLAYING, on a tick with no wall hit:
(a) in `index.tsx` a move whose `nextHead` coincides with a body cell other
than the current head crashes to GAME_OVER iff `now > ghostModeEndTime`
(strictly after expiry — the tick at the exact expiry timestamp is still
protected); (b) in `part_000` a move whose `nextHead` coincides with a body
cell other than the TAIL crashes iff `now ≥ ghostModeEndTime`; (c) in
`part_000` a move that self-intersects only at the tail cell (so its
`hitSelf` is false) never crashes, invulnerable or not. -/
theorem self_collision_amended :
    (∀ (o : SpawnOracle) (now : Int) (s : GameSim), s.gameState = GState.PLAYING →
      IndexTsx.hitWall (tickNextHead s) = false →
      IndexTsx.hitSelf s.snake (tickNextHead s) = true →
      ((IndexTsx.updateGameLogic o now s).gameState = GState.GAME_OVER ↔
        now > s.ghostModeEndTime)) ∧
    (∀ (o : SpawnOracle) (now : Int) (s : GameSim), s.gameState = GState.PLAYING →
      ¬ s.timeLeftMs - 100 ≤ 0 →
      Part000.hitWall (tickNextHead s) = false →
      Part000.hitSelf s.snake (tickNextHead s) = true →
      ((Part000.updateGameLogic o now s).gameState = GState.GAME_OVER ↔
        now ≥ s.ghostModeEndTime)) ∧
    (∀ (o : SpawnOracle) (now : Int) (s : GameSim), s.gameState = GState.PLAYING →
      ¬ s.timeLeftMs - 100 ≤ 0 →
      Part000.hitWall (tickNextHead s) = false →
      Part000.hitSelf s.snake (tickNextHead s) = false →
      (Part000.updateGameLogic o now s).gameState ≠ GState.GAME_OVER) := by
  refine ⟨?_, ?_, ?_⟩
  · intro o now s hps hw hself
    constructor
    · intro hgo
      by_contra hgt
      have hcond : (IndexTsx.hitWall (tickNextHead s) ||
          (IndexTsx.hitSelf s.snake (tickNextHead s) && decide (now > s.ghostModeEndTime))) = false := by
        simp [hw, hself, hgt]
      rcases IndexTsx.updateGameLogic_gameState_no_crash o now s hcond with h1 | h1 <;>
        rw [hgo] at h1
      · exact absurd h1 (by decide)
      · rw [hps] at h1; exact absurd h1 (by decide)
    · intro hgt
      have hcond : (IndexTsx.hitWall (tickNextHead s) ||
          (IndexTsx.hitSelf s.snake (tickNextHead s) && decide (now > s.ghostModeEndTime))) = true := by
        simp [hw, hself, hgt]
      rw [IndexTsx.updateGameLogic_crash o now s hcond]
  · intro o now s hps ht hw hself
    constructor
    · intro hgo
      by_contra hge
      have hlt : now < s.ghostModeEndTime := by omega
      have hcond : (!(decide (now < s.ghostModeEndTime)) &&
          Part000.hitSelf s.snake (tickNextHead s)) = false := by
        simp [hlt]
      have h1 := Part000.p0_updateGameLogic_gameState_no_crash o now s ht hw hcond
      rw [hgo, hps] at h1
      exact absurd h1 (by decide)
    · intro hge
      have hcond : (!(decide (now < s.ghostModeEndTime)) &&
          Part000.hitSelf s.snake (tickNextHead s)) = true := by
        simp [hself]
        omega
      rw [Part000.updateGameLogic_self o now s ht hw hcond]
  · intro o now s hps ht hw hself
    have hcond : (!(decide (now < s.ghostModeEndTime)) &&
        Part000.hitSelf s.snake (tickNextHead s)) = false := by
      simp [hself]
    have h1 := Part000.p0_updateGameLogic_gameState_no_crash o now s ht hw hcond
    rw [hps] at h1
    intro hgo
    rw [hgo] at h1
    exact absurd h1 (by decide)

/-- Witness for C1 (amended): one millisecond past the expiry, the same
self-intersecting move does crash `index.tsx` to GAME_OVER. -/
theorem self_collision_amended_witness :
    (IndexTsx.updateGameLogic o0 5001 c1state).gameState = GState.GAME_OVER :=
  (self_collision_amended.1 o0 5001 c1state rfl (by decide) (by decide)).mpr (by decide)

/-- Head at `(14,0)` moving `+x`, so `nextHead = (15,0)`. -/
def c2state : GameSim :=
  { baseState with snake := [⟨14, 0⟩, ⟨13, 0⟩, ⟨12, 0⟩], direction := ⟨1, 0⟩ }

/-- C2 — counterexample. The claim says a move with `nextHead.x ≥ 15` is a wall
collision; in `src/index.tsx` the check is `nextHead.x > GRID_SIZE / 2` (strict),
so the snake walks onto the `x = 15` column without crashing: the tick leaves
the game PLAYING and the head at `(15,0)`. -/
theorem wall_collision_half_open_counterexample :
    (tickNextHead c2state).x = 15 ∧
    (IndexTsx.updateGameLogic o0 1000 c2state).gameState = GState.PLAYING ∧
    (IndexTsx.updateGameLogic o0 1000 c2state).snake = [⟨15, 0⟩, ⟨14, 0⟩, ⟨13, 0⟩] := by
  refine ⟨by decide, by decide, by decide⟩

/-- C2 (amended): `index.tsx` treats a move as a wall collision exactly when a
coordinate of `nextHead` is `> 15` or `< -15` (the closed square `[-15,15]²` is
in-bounds), while `part_000` matches the claim's half-open `[-15,15)` exactly
(collision iff a coordinate is `≥ 15` or `< -15`); in both variants a `nextHead`
with both coordinates in `[-15,14]` is never a wall collision, and — absent a
self hit — a PLAYING tick enters GAME_OVER iff its variant's wall test fires. -/
theorem wall_collision_amended :
    (∀ p : Position, IndexTsx.hitWall p = true ↔ (p.x > 15 ∨ p.x < -15 ∨ p.z > 15 ∨ p.z < -15)) ∧
    (∀ p : Position, Part000.hitWall p = true ↔ (p.x ≥ 15 ∨ p.x < -15 ∨ p.z ≥ 15 ∨ p.z < -15)) ∧
    (∀ p : Position, -15 ≤ p.x ∧ p.x ≤ 14 ∧ -15 ≤ p.z ∧ p.z ≤ 14 →
      IndexTsx.hitWall p = false ∧ Part000.hitWall p = false) ∧
    (∀ (o : SpawnOracle) (now : Int) (s : GameSim), s.gameState = GState.PLAYING →
      IndexTsx.hitSelf s.snake (tickNextHead s) = false →
      ((IndexTsx.updateGameLogic o now s).gameState = GState.GAME_OVER ↔
        IndexTsx.hitWall (tickNextHead s) = true)) ∧
    (∀ (o : SpawnOracle) (now : Int) (s : GameSim), s.gameState = GState.PLAYING →
      ¬ s.timeLeftMs - 100 ≤ 0 →
      Part000.hitSelf s.snake (tickNextHead s) = false →
      ((Part000.updateGameLogic o now s).gameState = GState.GAME_OVER ↔
        Part000.hitWall (tickNextHead s) = true)) := by
  refine ⟨?_, ?_, ?_, ?_, ?_⟩
  · intro p
    simp [IndexTsx.hitWall]
    omega
  · intro p
    simp [Part000.hitWall]
    omega
  · intro p ⟨h1, h2, h3, h4⟩
    constructor
    · simp [IndexTsx.hitWall]; omega
    · simp [Part000.hitWall]; omega
  · intro o now s hps hself
    constructor
    · intro hgo
      by_contra hwne
      rw [Bool.not_eq_true] at hwne
      have hcond : (IndexTsx.hitWall (tickNextHead s) ||
          (IndexTsx.hitSelf s.snake (tickNextHead s) && decide (now > s.ghostModeEndTime))) = false := by
        simp [hwne, hself]
      rcases IndexTsx.updateGameLogic_gameState_no_crash o now s hcond with h1 | h1 <;>
        rw [hgo] at h1
      · exact absurd h1 (by decide)
      · rw [hps] at h1; exact absurd h1 (by decide)
    · intro hw
      have hcond : (IndexTsx.hitWall (tickNextHead s) ||
          (IndexTsx.hitSelf s.snake (tickNextHead s) && decide (now > s.ghostModeEndTime))) = true := by
        simp [hw]
      rw [IndexTsx.updateGameLogic_crash o now s hcond]
  · intro o now s hps ht hself
    constructor
    · intro hgo
      by_contra hwne
      rw [Bool.not_eq_true] at hwne
      have hcond : (!(decide (now < s.ghostModeEndTime)) &&
          Part000.hitSelf s.snake (tickNextHead s)) = false := by
        simp [hself]
      have h1 := Part000.p0_updateGameLogic_gameState_no_crash o now s ht hwne hcond
      rw [hgo, hps] at h1
      exact absurd h1 (by decide)
    · intro hw
      rw [Part000.updateGameLogic_wall o now s ht hw]

/-- Witness for C2 (amended): moving from `(15,0)` to `(16,0)` does crash
`index.tsx` (coordinate `> 15`), and `part_000` crashes already on the move
onto `x = 15` from `c2state`. -/
theorem wall_collision_amended_witness :
    (IndexTsx.updateGameLogic o0 1000
      { baseState with snake := [⟨15, 0⟩, ⟨14, 0⟩, ⟨13, 0⟩], direction := ⟨1, 0⟩ }).gameState =
      GState.GAME_OVER ∧
    (Part000.updateGameLogic o0 1000 c2state).gameState = GState.GAME_OVER :=
  ⟨(wall_collision_amended.2.2.2.1 o0 1000
      { baseState with snake := [⟨15, 0⟩, ⟨14, 0⟩, ⟨13, 0⟩], direction := ⟨1, 0⟩ }
      rfl (by decide)).mpr (by decide),
   (wall_collision_amended.2.2.2.2 o0 1000 c2state rfl (by decide) (by decide)).mpr (by decide)⟩

lemma IndexTsx.enqueueDirection_eq (s : GameSim) (d : Position) :
    IndexTsx.enqueueDirection s d =
      (if s.gameState ≠ GState.PLAYING then s
       else if d.x ≠ -(s.moveQueue.getLastD s.direction).x ∨
               d.z ≠ -(s.moveQueue.getLastD s.direction).z then
         (if s.moveQueue.length < 3 then { s with moveQueue := s.moveQueue ++ [d] } else s)
       else s) := rfl

lemma Part000.handleDirectionInput_eq (s : GameSim) (d : Position) :
    Part000.handleDirectionInput s d =
      (if s.gameState ≠ GState.PLAYING then s
       else if (s.moveQueue.getLastD s.direction).x ≠ 0 ∧ d.x ≠ 0 then s
       else if (s.moveQueue.getLastD s.direction).z ≠ 0 ∧ d.z ≠ 0 then s
       else { s with moveQueue := s.moveQueue ++ [d] }) := rfl

lemma Position.ne_origin_iff (p : Position) : p ≠ ⟨0, 0⟩ ↔ p.x ≠ 0 ∨ p.z ≠ 0 := by
  obtain ⟨x, z⟩ := p
  simp [Position.mk.injEq]
  tauto

/-- C4 — counterexample. The touch-control `onPointerDown` handlers in
`src/index.tsx` push the requested direction straight into `moveQueueRef` with
no validation: starting from the fresh state (current direction `(0,-1)`, empty
queue), a DOWN press enqueues `(0,1)` — the exact negation of the current
direction — and four consecutive presses drive the queue length to 4 > 3. -/
theorem input_queue_validation_counterexample :
    (IndexTsx.touchEnqueue baseState ⟨0, 1⟩).moveQueue = [⟨0, 1⟩] ∧
    (⟨0, 1⟩ : Position).x = -(baseState.direction.x) ∧
    (⟨0, 1⟩ : Position).z = -(baseState.direction.z) ∧
    (IndexTsx.touchEnqueue (IndexTsx.touchEnqueue (IndexTsx.touchEnqueue
      (IndexTsx.touchEnqueue baseState ⟨1, 0⟩) ⟨1, 0⟩) ⟨1, 0⟩) ⟨1, 0⟩).moveQueue.length = 4 := by
  refine ⟨by decide, by decide, by decide, by decide⟩

/-- C4 (amended): only the key-based handler of `index.tsx` implements the
claimed validation — it drops a request equal to the exact negation of the last
enqueued (else current) direction and enqueues only while fewer than 3 moves
are queued, so along that handler the queue stays ≤ 3 and accepted moves are
never reversals; the pointer/touch handlers of `index.tsx` bypass validation
entirely (unconditional push); and in `part_000` both input sources share a
stricter same-axis rejection (which subsumes reversals) but have NO capacity
bound: any accepted request is appended no matter how long the queue already is. -/
theorem input_queue_validation_amended :
    (∀ (s : GameSim) (d : Position),
      d.x = -(s.moveQueue.getLastD s.direction).x →
      d.z = -(s.moveQueue.getLastD s.direction).z →
      IndexTsx.enqueueDirection s d = s) ∧
    (∀ (s : GameSim) (d : Position), s.moveQueue.length ≤ 3 →
      (IndexTsx.enqueueDirection s d).moveQueue.length ≤ 3) ∧
    (∀ (s : GameSim) (d : Position),
      (IndexTsx.enqueueDirection s d).moveQueue = s.moveQueue ∨
      ((IndexTsx.enqueueDirection s d).moveQueue = s.moveQueue ++ [d] ∧
        s.moveQueue.length < 3 ∧
        ¬(d.x = -(s.moveQueue.getLastD s.direction).x ∧
          d.z = -(s.moveQueue.getLastD s.direction).z))) ∧
    (∀ (s : GameSim) (d : Position),
      IndexTsx.touchEnqueue s d = { s with moveQueue := s.moveQueue ++ [d] }) ∧
    (∀ (s : GameSim) (d : Position),
      (Part000.handleDirectionInput s d).moveQueue = s.moveQueue ∨
      ((Part000.handleDirectionInput s d).moveQueue = s.moveQueue ++ [d] ∧
        ¬((s.moveQueue.getLastD s.direction).x ≠ 0 ∧ d.x ≠ 0) ∧
        ¬((s.moveQueue.getLastD s.direction).z ≠ 0 ∧ d.z ≠ 0))) ∧
    (∀ (s : GameSim) (d : Position),
      s.moveQueue.getLastD s.direction ≠ ⟨0, 0⟩ →
      d.x = -(s.moveQueue.getLastD s.direction).x →
      d.z = -(s.moveQueue.getLastD s.direction).z →
      Part000.handleDirectionInput s d = s) := by
  refine ⟨?_, ?_, ?_, ?_, ?_, ?_⟩
  · intro s d hx hz
    rw [IndexTsx.enqueueDirection_eq]
    split_ifs with h1 h2 h3 <;> first | rfl | (rcases h2 with h | h <;> omega)
  · intro s d hlen
    rw [IndexTsx.enqueueDirection_eq]
    split_ifs with h1 h2 h3
    · exact hlen
    · simp only [GameSim.moveQueue, List.length_append, List.length_cons, List.length_nil]
      omega
    · exact hlen
    · exact hlen
  · intro s d
    rw [IndexTsx.enqueueDirection_eq]
    split_ifs with h1 h2 h3
    · exact Or.inl rfl
    · refine Or.inr ⟨rfl, h3, ?_⟩
      intro ⟨ha, hb⟩
      rcases h2 with h | h <;> omega
    · exact Or.inl rfl
    · exact Or.inl rfl
  · intro s d
    rfl
  · intro s d
    rw [Part000.handleDirectionInput_eq]
    split_ifs with h1 h2 h3
    · exact Or.inl rfl
    · exact Or.inl rfl
    · exact Or.inl rfl
    · exact Or.inr ⟨rfl, h2, h3⟩
  · intro s d hl hx hz
    rw [Part000.handleDirectionInput_eq]
    have hne := (Position.ne_origin_iff (s.moveQueue.getLastD s.direction)).mp hl
    split_ifs with h1 h2 h3 <;> first
      | rfl
      | (exfalso
         rw [not_and_or] at h2 h3
         rcases hne with h | h
         · rcases h2 with h2 | h2 <;> omega
         · rcases h3 with h3 | h3 <;> omega)

/-- Witness for C4 (amended): from the fresh state, the key-based handler of
`index.tsx` rejects the 180° request DOWN (direction is UP), leaving the state
unchanged, and `part_000` rejects it as well. -/
theorem input_queue_validation_amended_witness :
    IndexTsx.enqueueDirection baseState ⟨0, 1⟩ = baseState ∧
    Part000.handleDirectionInput baseState ⟨0, 1⟩ = baseState :=
  ⟨input_queue_validation_amended.1 baseState ⟨0, 1⟩ (by decide) (by decide),
   input_queue_validation_amended.2.2.2.2.2 baseState ⟨0, 1⟩ (by decide) (by decide) (by decide)⟩

section ProjectionLemmas

lemma IndexTsx.spawnFood_gameState (o : SpawnOracle) (x : GameSim) :
    (IndexTsx.spawnFood o x).gameState = x.gameState := by
  obtain ⟨fs, pu, hsp⟩ := IndexTsx.spawnFood_fields o x
  rw [hsp]

lemma IndexTsx.spawnFood_snake (o : SpawnOracle) (x : GameSim) :
    (IndexTsx.spawnFood o x).snake = x.snake := by
  obtain ⟨fs, pu, hsp⟩ := IndexTsx.spawnFood_fields o x
  rw [hsp]

lemma IndexTsx.spawnFood_direction (o : SpawnOracle) (x : GameSim) :
    (IndexTsx.spawnFood o x).direction = x.direction := by
  obtain ⟨fs, pu, hsp⟩ := IndexTsx.spawnFood_fields o x
  rw [hsp]

lemma IndexTsx.spawnFood_moveQueue (o : SpawnOracle) (x : GameSim) :
    (IndexTsx.spawnFood o x).moveQueue = x.moveQueue := by
  obtain ⟨fs, pu, hsp⟩ := IndexTsx.spawnFood_fields o x
  rw [hsp]

lemma IndexTsx.spawnFood_score (o : SpawnOracle) (x : GameSim) :
    (IndexTsx.spawnFood o x).score = x.score := by
  obtain ⟨fs, pu, hsp⟩ := IndexTsx.spawnFood_fields o x
  rw [hsp]

lemma IndexTsx.spawnFood_level (o : SpawnOracle) (x : GameSim) :
    (IndexTsx.spawnFood o x).level = x.level := by
  obtain ⟨fs, pu, hsp⟩ := IndexTsx.spawnFood_fields o x
  rw [hsp]

lemma IndexTsx.spawnFood_timeLeftMs (o : SpawnOracle) (x : GameSim) :
    (IndexTsx.spawnFood o x).timeLeftMs = x.timeLeftMs := by
  obtain ⟨fs, pu, hsp⟩ := IndexTsx.spawnFood_fields o x
  rw [hsp]

lemma IndexTsx.spawnFood_moveInterval (o : SpawnOracle) (x : GameSim) :
    (IndexTsx.spawnFood o x).moveInterval = x.moveInterval := by
  obtain ⟨fs, pu, hsp⟩ := IndexTsx.spawnFood_fields o x
  rw [hsp]

lemma IndexTsx.spawnFood_baseLevelSpeed (o : SpawnOracle) (x : GameSim) :
    (IndexTsx.spawnFood o x).baseLevelSpeed = x.baseLevelSpeed := by
  obtain ⟨fs, pu, hsp⟩ := IndexTsx.spawnFood_fields o x
  rw [hsp]

lemma IndexTsx.spawnFood_levelStartScore (o : SpawnOracle) (x : GameSim) :
    (IndexTsx.spawnFood o x).levelStartScore = x.levelStartScore := by
  obtain ⟨fs, pu, hsp⟩ := IndexTsx.spawnFood_fields o x
  rw [hsp]

lemma IndexTsx.spawnFood_ghostModeEndTime (o : SpawnOracle) (x : GameSim) :
    (IndexTsx.spawnFood o x).ghostModeEndTime = x.ghostModeEndTime := by
  obtain ⟨fs, pu, hsp⟩ := IndexTsx.spawnFood_fields o x
  rw [hsp]

lemma IndexTsx.spawnFood_speedBoostEndTime (o : SpawnOracle) (x : GameSim) :
    (IndexTsx.spawnFood o x).speedBoostEndTime = x.speedBoostEndTime := by
  obtain ⟨fs, pu, hsp⟩ := IndexTsx.spawnFood_fields o x
  rw [hsp]

lemma IndexTsx.spawnFood_dogPulseEndTime (o : SpawnOracle) (x : GameSim) :
    (IndexTsx.spawnFood o x).dogPulseEndTime = x.dogPulseEndTime := by
  obtain ⟨fs, pu, hsp⟩ := IndexTsx.spawnFood_fields o x
  rw [hsp]

lemma Part000.spawnFoodGo_gameState (o : SpawnOracle) (c k : Nat) (x : GameSim) :
    (Part000.spawnFoodGo o k c x).gameState = x.gameState := by
  obtain ⟨fs, hfs⟩ := Part000.spawnFoodGo_fields o c k x
  rw [hfs]

lemma Part000.spawnFoodGo_snake (o : SpawnOracle) (c k : Nat) (x : GameSim) :
    (Part000.spawnFoodGo o k c x).snake = x.snake := by
  obtain ⟨fs, hfs⟩ := Part000.spawnFoodGo_fields o c k x
  rw [hfs]

lemma Part000.spawnFoodGo_direction (o : SpawnOracle) (c k : Nat) (x : GameSim) :
    (Part000.spawnFoodGo o k c x).direction = x.direction := by
  obtain ⟨fs, hfs⟩ := Part000.spawnFoodGo_fields o c k x
  rw [hfs]

lemma Part000.spawnFoodGo_moveQueue (o : SpawnOracle) (c k : Nat) (x : GameSim) :
    (Part000.spawnFoodGo o k c x).moveQueue = x.moveQueue := by
  obtain ⟨fs, hfs⟩ := Part000.spawnFoodGo_fields o c k x
  rw [hfs]

lemma Part000.spawnFoodGo_score (o : SpawnOracle) (c k : Nat) (x : GameSim) :
    (Part000.spawnFoodGo o k c x).score = x.score := by
  obtain ⟨fs, hfs⟩ := Part000.spawnFoodGo_fields o c k x
  rw [hfs]

lemma Part000.spawnFoodGo_level (o : SpawnOracle) (c k : Nat) (x : GameSim) :
    (Part000.spawnFoodGo o k c x).level = x.level := by
  obtain ⟨fs, hfs⟩ := Part000.spawnFoodGo_fields o c k x
  rw [hfs]

lemma Part000.spawnFoodGo_timeLeftMs (o : SpawnOracle) (c k : Nat) (x : GameSim) :
    (Part000.spawnFoodGo o k c x).timeLeftMs = x.timeLeftMs := by
  obtain ⟨fs, hfs⟩ := Part000.spawnFoodGo_fields o c k x
  rw [hfs]

lemma Part000.spawnFoodGo_moveInterval (o : SpawnOracle) (c k : Nat) (x : GameSim) :
    (Part000.spawnFoodGo o k c x).moveInterval = x.moveInterval := by
  obtain ⟨fs, hfs⟩ := Part000.spawnFoodGo_fields o c k x
  rw [hfs]

lemma Part000.spawnFoodGo_baseLevelSpeed (o : SpawnOracle) (c k : Nat) (x : GameSim) :
    (Part000.spawnFoodGo o k c x).baseLevelSpeed = x.baseLevelSpeed := by
  obtain ⟨fs, hfs⟩ := Part000.spawnFoodGo_fields o c k x
  rw [hfs]

lemma Part000.spawnFoodGo_levelStartScore (o : SpawnOracle) (c k : Nat) (x : GameSim) :
    (Part000.spawnFoodGo o k c x).levelStartScore = x.levelStartScore := by
  obtain ⟨fs, hfs⟩ := Part000.spawnFoodGo_fields o c k x
  rw [hfs]

lemma Part000.spawnFoodGo_ghostModeEndTime (o : SpawnOracle) (c k : Nat) (x : GameSim) :
    (Part000.spawnFoodGo o k c x).ghostModeEndTime = x.ghostModeEndTime := by
  obtain ⟨fs, hfs⟩ := Part000.spawnFoodGo_fields o c k x
  rw [hfs]

lemma Part000.spawnFoodGo_speedBoostEndTime (o : SpawnOracle) (c k : Nat) (x : GameSim) :
    (Part000.spawnFoodGo o k c x).speedBoostEndTime = x.speedBoostEndTime := by
  obtain ⟨fs, hfs⟩ := Part000.spawnFoodGo_fields o c k x
  rw [hfs]

lemma Part000.spawnFoodGo_dogPulseEndTime (o : SpawnOracle) (c k : Nat) (x : GameSim) :
    (Part000.spawnFoodGo o k c x).dogPulseEndTime = x.dogPulseEndTime := by
  obtain ⟨fs, hfs⟩ := Part000.spawnFoodGo_fields o c k x
  rw [hfs]

lemma Part000.spawnFoodGo_powerUp (o : SpawnOracle) (c k : Nat) (x : GameSim) :
    (Part000.spawnFoodGo o k c x).powerUp = x.powerUp := by
  obtain ⟨fs, hfs⟩ := Part000.spawnFoodGo_fields o c k x
  rw [hfs]

lemma Part000.spawnPowerUp_gameState (o : SpawnOracle) (x : GameSim) :
    (Part000.spawnPowerUp o x).gameState = x.gameState := by
  obtain ⟨pu, hpu⟩ := Part000.spawnPowerUp_fields o x
  rw [hpu]

lemma Part000.spawnPowerUp_snake (o : SpawnOracle) (x : GameSim) :
    (Part000.spawnPowerUp o x).snake = x.snake := by
  obtain ⟨pu, hpu⟩ := Part000.spawnPowerUp_fields o x
  rw [hpu]

lemma Part000.spawnPowerUp_direction (o : SpawnOracle) (x : GameSim) :
    (Part000.spawnPowerUp o x).direction = x.direction := by
  obtain ⟨pu, hpu⟩ := Part000.spawnPowerUp_fields o x
  rw [hpu]

lemma Part000.spawnPowerUp_moveQueue (o : SpawnOracle) (x : GameSim) :
    (Part000.spawnPowerUp o x).moveQueue = x.moveQueue := by
  obtain ⟨pu, hpu⟩ := Part000.spawnPowerUp_fields o x
  rw [hpu]

lemma Part000.spawnPowerUp_score (o : SpawnOracle) (x : GameSim) :
    (Part000.spawnPowerUp o x).score = x.score := by
  obtain ⟨pu, hpu⟩ := Part000.spawnPowerUp_fields o x
  rw [hpu]

lemma Part000.spawnPowerUp_level (o : SpawnOracle) (x : GameSim) :
    (Part000.spawnPowerUp o x).level = x.level := by
  obtain ⟨pu, hpu⟩ := Part000.spawnPowerUp_fields o x
  rw [hpu]

lemma Part000.spawnPowerUp_timeLeftMs (o : SpawnOracle) (x : GameSim) :
    (Part000.spawnPowerUp o x).timeLeftMs = x.timeLeftMs := by
  obtain ⟨pu, hpu⟩ := Part000.spawnPowerUp_fields o x
  rw [hpu]

lemma Part000.spawnPowerUp_moveInterval (o : SpawnOracle) (x : GameSim) :
    (Part000.spawnPowerUp o x).moveInterval = x.moveInterval := by
  obtain ⟨pu, hpu⟩ := Part000.spawnPowerUp_fields o x
  rw [hpu]

lemma Part000.spawnPowerUp_baseLevelSpeed (o : SpawnOracle) (x : GameSim) :
    (Part000.spawnPowerUp o x).baseLevelSpeed = x.baseLevelSpeed := by
  obtain ⟨pu, hpu⟩ := Part000.spawnPowerUp_fields o x
  rw [hpu]

lemma Part000.spawnPowerUp_levelStartScore (o : SpawnOracle) (x : GameSim) :
    (Part000.spawnPowerUp o x).levelStartScore = x.levelStartScore := by
  obtain ⟨pu, hpu⟩ := Part000.spawnPowerUp_fields o x
  rw [hpu]

lemma Part000.spawnPowerUp_ghostModeEndTime (o : SpawnOracle) (x : GameSim) :
    (Part000.spawnPowerUp o x).ghostModeEndTime = x.ghostModeEndTime := by
  obtain ⟨pu, hpu⟩ := Part000.spawnPowerUp_fields o x
  rw [hpu]

lemma Part000.spawnPowerUp_speedBoostEndTime (o : SpawnOracle) (x : GameSim) :
    (Part000.spawnPowerUp o x).speedBoostEndTime = x.speedBoostEndTime := by
  obtain ⟨pu, hpu⟩ := Part000.spawnPowerUp_fields o x
  rw [hpu]

lemma Part000.spawnPowerUp_dogPulseEndTime (o : SpawnOracle) (x : GameSim) :
    (Part000.spawnPowerUp o x).dogPulseEndTime = x.dogPulseEndTime := by
  obtain ⟨pu, hpu⟩ := Part000.spawnPowerUp_fields o x
  rw [hpu]

end ProjectionLemmas

lemma IndexTsx.retryLevel_eq (o : SpawnOracle) (s : GameSim) :
    IndexTsx.retryLevel o s =
      { IndexTsx.spawnFood o
          { s with gameState := GState.PLAYING, score := s.levelStartScore,
                   timeLeftMs := 25000, moveInterval := s.baseLevelSpeed,
                   direction := ⟨0, -1⟩, moveQueue := [],
                   snake := [⟨0, 2⟩, ⟨0, 3⟩, ⟨0, 4⟩], foods := [], powerUp := none } with
        gameState := GState.PLAYING } := rfl

lemma IndexTsx.nextLevelTimeout_eq (o : SpawnOracle) (s : GameSim) :
    IndexTsx.nextLevelTimeout o s =
      { IndexTsx.spawnFood o
          { s with gameState := GState.PLAYING, level := s.level + 1,
                   baseLevelSpeed := max 50 (s.baseLevelSpeed - 15),
                   moveInterval := max 50 (s.baseLevelSpeed - 15),
                   timeLeftMs := 25000, levelStartScore := s.score,
                   direction := ⟨0, -1⟩, moveQueue := [],
                   snake := [⟨0, 2⟩, ⟨0, 3⟩, ⟨0, 4⟩], foods := [], powerUp := none } with
        gameState := GState.PLAYING } := rfl

lemma Part000.p0_retryLevel_eq (o : SpawnOracle) (s : GameSim) :
    Part000.retryLevel o s =
      Part000.spawnFoodGo o 0 (s.level * 5)
        { s with gameState := GState.PLAYING, score := s.levelStartScore,
                 snake := [⟨0, 0⟩], direction := ⟨0, -1⟩, moveQueue := [],
                 timeLeftMs := 25000, moveInterval := s.baseLevelSpeed,
                 foods := [] } := rfl

lemma Part000.resetGame_gameState (o : SpawnOracle) (lvl : Nat) (s : GameSim) :
    (Part000.resetGame o lvl s).gameState = s.gameState := by
  unfold Part000.resetGame
  by_cases hl : lvl = 1
  · simp only [if_pos hl, Part000.spawnFoodGo_gameState]
  · simp only [if_neg hl, Part000.spawnFoodGo_gameState]

lemma Part000.resetGame_level (o : SpawnOracle) (lvl : Nat) (s : GameSim) :
    (Part000.resetGame o lvl s).level = lvl := by
  unfold Part000.resetGame
  by_cases hl : lvl = 1
  · simp only [if_pos hl, Part000.spawnFoodGo_level]
  · simp only [if_neg hl, Part000.spawnFoodGo_level]

/-- A GAME_OVER state mid-run: score 700, level-start snapshot 300, and a speed
boost plus ghost mode both armed until timestamp 9000. -/
def c6state : GameSim :=
  { baseState with gameState := GState.GAME_OVER, score := 700, levelStartScore := 300,
                   speedBoostEndTime := 9000, ghostModeEndTime := 9000 }

/-- C6 — counterexample. Neither variant's `retryLevel()` clears the
ghost/speed-boost expiry timestamps: after retrying from `c6state` both stay at
9000, so at wall-clock time 1000 the gating interval is still the boosted 60 ms
instead of the restored 200 ms base — an armed speed-boost (and invulnerability)
status DOES carry into the retried level, contradicting the claim. -/
theorem retry_level_counterexample :
    (IndexTsx.retryLevel o0 c6state).speedBoostEndTime = 9000 ∧
    (IndexTsx.retryLevel o0 c6state).ghostModeEndTime = 9000 ∧
    (IndexTsx.retryLevel o0 c6state).moveInterval = 200 ∧
    effectiveInterval 1000 (IndexTsx.retryLevel o0 c6state) = 60 ∧
    (Part000.retryLevel o0 c6state).speedBoostEndTime = 9000 ∧
    (Part000.retryLevel o0 c6state).ghostModeEndTime = 9000 := by
  refine ⟨?_, ?_, ?_, ?_, ?_, ?_⟩
  · simp only [IndexTsx.retryLevel_eq, IndexTsx.spawnFood_speedBoostEndTime]; rfl
  · simp only [IndexTsx.retryLevel_eq, IndexTsx.spawnFood_ghostModeEndTime]; rfl
  · simp only [IndexTsx.retryLevel_eq, IndexTsx.spawnFood_moveInterval]; rfl
  · unfold effectiveInterval
    rw [show (IndexTsx.retryLevel o0 c6state).speedBoostEndTime = 9000 by
      simp only [IndexTsx.retryLevel_eq, IndexTsx.spawnFood_speedBoostEndTime]; rfl]
    rfl
  · simp only [Part000.p0_retryLevel_eq, Part000.spawnFoodGo_speedBoostEndTime]; rfl
  · simp only [Part000.p0_retryLevel_eq, Part000.spawnFoodGo_ghostModeEndTime]; rfl

/-- C6 (amended): in both variants `retryLevel()` restores the level-start score
snapshot, resets the countdown to the full level duration, keeps the level
number, resets the snake and the input queue, restores the level's BASE tick
interval into the gating interval ref, and transitions to PLAYING — but the
ghost-mode and speed-boost expiry timestamps are left untouched, so any
still-unexpired invulnerability or speed-boost status carries into the retried
level (while `Date.now() < speedBoostEndTime` the effective gate stays the
boosted 60 ms). In `part_000` the foods are also respawned to `level × 5`. -/
theorem retry_level_amended :
    (∀ (o : SpawnOracle) (s : GameSim),
      (IndexTsx.retryLevel o s).score = s.levelStartScore ∧
      (IndexTsx.retryLevel o s).timeLeftMs = 25000 ∧
      (IndexTsx.retryLevel o s).level = s.level ∧
      (IndexTsx.retryLevel o s).moveInterval = s.baseLevelSpeed ∧
      (IndexTsx.retryLevel o s).baseLevelSpeed = s.baseLevelSpeed ∧
      (IndexTsx.retryLevel o s).gameState = GState.PLAYING ∧
      (IndexTsx.retryLevel o s).snake = [⟨0, 2⟩, ⟨0, 3⟩, ⟨0, 4⟩] ∧
      (IndexTsx.retryLevel o s).moveQueue = [] ∧
      (IndexTsx.retryLevel o s).ghostModeEndTime = s.ghostModeEndTime ∧
      (IndexTsx.retryLevel o s).speedBoostEndTime = s.speedBoostEndTime) ∧
    (∀ (o : SpawnOracle) (s : GameSim),
      (Part000.retryLevel o s).score = s.levelStartScore ∧
      (Part000.retryLevel o s).timeLeftMs = 25000 ∧
      (Part000.retryLevel o s).level = s.level ∧
      (Part000.retryLevel o s).moveInterval = s.baseLevelSpeed ∧
      (Part000.retryLevel o s).baseLevelSpeed = s.baseLevelSpeed ∧
      (Part000.retryLevel o s).gameState = GState.PLAYING ∧
      (Part000.retryLevel o s).snake = [⟨0, 0⟩] ∧
      (Part000.retryLevel o s).moveQueue = [] ∧
      (Part000.retryLevel o s).foods.length = s.level * 5 ∧
      (Part000.retryLevel o s).ghostModeEndTime = s.ghostModeEndTime ∧
      (Part000.retryLevel o s).speedBoostEndTime = s.speedBoostEndTime) := by
  constructor
  · intro o s
    refine ⟨?_, ?_, ?_, ?_, ?_, ?_, ?_, ?_, ?_, ?_⟩ <;>
      simp only [IndexTsx.retryLevel_eq, IndexTsx.spawnFood_score,
        IndexTsx.spawnFood_timeLeftMs, IndexTsx.spawnFood_level,
        IndexTsx.spawnFood_moveInterval, IndexTsx.spawnFood_baseLevelSpeed,
        IndexTsx.spawnFood_snake, IndexTsx.spawnFood_moveQueue,
        IndexTsx.spawnFood_ghostModeEndTime, IndexTsx.spawnFood_speedBoostEndTime]
  · intro o s
    refine ⟨?_, ?_, ?_, ?_, ?_, ?_, ?_, ?_, ?_, ?_, ?_⟩ <;>
      simp only [Part000.p0_retryLevel_eq, Part000.spawnFoodGo_score,
        Part000.spawnFoodGo_timeLeftMs, Part000.spawnFoodGo_level,
        Part000.spawnFoodGo_moveInterval, Part000.spawnFoodGo_baseLevelSpeed,
        Part000.spawnFoodGo_gameState, Part000.spawnFoodGo_snake,
        Part000.spawnFoodGo_moveQueue, Part000.spawnFoodGo_ghostModeEndTime,
        Part000.spawnFoodGo_speedBoostEndTime, Part000.spawnFoodGo_length,
        List.length_nil, Nat.zero_add]

/-- Witness is not needed for C6 (no hypotheses), but the amended statement is
exercised at a concrete state by `retry_level_counterexample` above. -/
theorem retry_level_amended_concrete :
    (IndexTsx.retryLevel o0 c6state).score = 300 ∧
    (IndexTsx.retryLevel o0 c6state).gameState = GState.PLAYING :=
  ⟨(retry_level_amended.1 o0 c6state).1, (retry_level_amended.1 o0 c6state).2.2.2.2.2.1⟩

/-- C9 — the deferred level-transition callbacks check nothing. In
`src/index.tsx`, the body of the 4000 ms `setTimeout` scheduled by `nextLevel()`
unconditionally increments the level and forces the state to PLAYING; in
`part_000` the 3000 ms callback `startLevel(levelRef.current + 1)` does the
same. Neither consults the current game state, so a stale callback firing after
the player left LEVEL_TRANSITION (e.g. started a new game with F2 mid-transition)
still advances the level and forces PLAYING — the claim describes a guard that
is not in the code. -/
theorem level_transition_callback_unguarded :
    (∀ (o : SpawnOracle) (s : GameSim), s.gameState ≠ GState.LEVEL_TRANSITION →
      (IndexTsx.nextLevelTimeout o s).gameState = GState.PLAYING ∧
      (IndexTsx.nextLevelTimeout o s).level = s.level + 1) ∧
    (∀ (o : SpawnOracle) (s : GameSim), s.gameState ≠ GState.LEVEL_TRANSITION →
      (Part000.startLevelTimeout o s).gameState = GState.PLAYING ∧
      (Part000.startLevelTimeout o s).level = s.level + 1) := by
  constructor
  · intro o s _
    constructor
    · simp only [IndexTsx.nextLevelTimeout_eq, IndexTsx.spawnFood_gameState]
    · simp only [IndexTsx.nextLevelTimeout_eq, IndexTsx.spawnFood_level]
  · intro o s _
    constructor
    · unfold Part000.startLevelTimeout Part000.startLevel
      rw [Part000.resetGame_gameState]
    · unfold Part000.startLevelTimeout Part000.startLevel
      rw [Part000.resetGame_level]

/-- Witness for C9: a stale `index.tsx` callback fired on the START screen (the
player quit mid-transition) still forces PLAYING and bumps the level, and the
`part_000` callback does the same from GAME_OVER. -/
theorem level_transition_callback_unguarded_witness :
    (IndexTsx.nextLevelTimeout o0 { baseState with gameState := GState.START }).gameState =
      GState.PLAYING ∧
    (IndexTsx.nextLevelTimeout o0 { baseState with gameState := GState.START }).level = 2 ∧
    (Part000.startLevelTimeout o0 { baseState with gameState := GState.GAME_OVER }).level = 2 :=
  ⟨(level_transition_callback_unguarded.1 o0 { baseState with gameState := GState.START }
      (by decide)).1,
   (level_transition_callback_unguarded.1 o0 { baseState with gameState := GState.START }
      (by decide)).2,
   (level_transition_callback_unguarded.2 o0 { baseState with gameState := GState.GAME_OVER }
      (by decide)).2⟩

/-- C8 — the persisted-leaderboard load of both variants has no try/catch: an
absent key is handled (`if (stored)` leaves the empty list), but for a PRESENT,
malformed value the `JSON.parse` exception propagates straight out of the
initialization effect — startup fails instead of degrading to an empty list.
Formally: for every parse function and every stored string on which it throws,
`loadHighScores` re-raises that same error. -/
theorem highscores_parse_error_propagates :
    (∀ parse : String → Except String (List HighScore),
      loadHighScores parse none = Except.ok []) ∧
    (∀ (parse : String → Except String (List HighScore)) (str e : String),
      parse str = Except.error e →
      loadHighScores parse (some str) = Except.error e) := by
  constructor
  · intro parse
    rfl
  · intro parse str e h
    simpa [loadHighScores] using h

/-- A stand-in for `JSON.parse` restricted to the well-formed persisted value
`"[]"`: anything else throws a SyntaxError. -/
def jsonParse0 : String → Except String (List HighScore) :=
  fun str => if str = "[]" then Except.ok [] else Except.error "SyntaxError"

/-- Witness for C8: with the stored value `"oops"` the parse error reaches the
caller — startup crashes — while an absent value yields the empty list. -/
theorem highscores_parse_error_propagates_witness :
    loadHighScores jsonParse0 (some "oops") = Except.error "SyntaxError" ∧
    loadHighScores jsonParse0 none = Except.ok [] :=
  ⟨highscores_parse_error_propagates.2 jsonParse0 "oops" "SyntaxError" (by rfl),
   highscores_parse_error_propagates.1 jsonParse0⟩

section TimerStepLemmas

lemma IndexTsx.timerStep_snake (x : GameSim) :
    (IndexTsx.timerStep x).snake = x.snake := by
  rw [IndexTsx.timerStep_eq]
  split_ifs <;> rfl

lemma IndexTsx.timerStep_direction (x : GameSim) :
    (IndexTsx.timerStep x).direction = x.direction := by
  rw [IndexTsx.timerStep_eq]
  split_ifs <;> rfl

lemma IndexTsx.timerStep_moveQueue (x : GameSim) :
    (IndexTsx.timerStep x).moveQueue = x.moveQueue := by
  rw [IndexTsx.timerStep_eq]
  split_ifs <;> rfl

lemma IndexTsx.timerStep_foods (x : GameSim) :
    (IndexTsx.timerStep x).foods = x.foods := by
  rw [IndexTsx.timerStep_eq]
  split_ifs <;> rfl

lemma IndexTsx.timerStep_powerUp (x : GameSim) :
    (IndexTsx.timerStep x).powerUp = x.powerUp := by
  rw [IndexTsx.timerStep_eq]
  split_ifs <;> rfl

lemma IndexTsx.timerStep_score (x : GameSim) :
    (IndexTsx.timerStep x).score = x.score := by
  rw [IndexTsx.timerStep_eq]
  split_ifs <;> rfl

lemma IndexTsx.timerStep_level (x : GameSim) :
    (IndexTsx.timerStep x).level = x.level := by
  rw [IndexTsx.timerStep_eq]
  split_ifs <;> rfl

lemma IndexTsx.timerStep_moveInterval (x : GameSim) :
    (IndexTsx.timerStep x).moveInterval = x.moveInterval := by
  rw [IndexTsx.timerStep_eq]
  split_ifs <;> rfl

lemma IndexTsx.timerStep_baseLevelSpeed (x : GameSim) :
    (IndexTsx.timerStep x).baseLevelSpeed = x.baseLevelSpeed := by
  rw [IndexTsx.timerStep_eq]
  split_ifs <;> rfl

lemma IndexTsx.timerStep_levelStartScore (x : GameSim) :
    (IndexTsx.timerStep x).levelStartScore = x.levelStartScore := by
  rw [IndexTsx.timerStep_eq]
  split_ifs <;> rfl

lemma IndexTsx.timerStep_ghostModeEndTime (x : GameSim) :
    (IndexTsx.timerStep x).ghostModeEndTime = x.ghostModeEndTime := by
  rw [IndexTsx.timerStep_eq]
  split_ifs <;> rfl

lemma IndexTsx.timerStep_speedBoostEndTime (x : GameSim) :
    (IndexTsx.timerStep x).speedBoostEndTime = x.speedBoostEndTime := by
  rw [IndexTsx.timerStep_eq]
  split_ifs <;> rfl

lemma IndexTsx.timerStep_dogPulseEndTime (x : GameSim) :
    (IndexTsx.timerStep x).dogPulseEndTime = x.dogPulseEndTime := by
  rw [IndexTsx.timerStep_eq]
  split_ifs <;> rfl

end TimerStepLemmas

/-- A snake about to step onto a GHOST power-up at `(0,-1)`; one food far away
keeps the food branch out of play. -/
def c5state : GameSim :=
  { baseState with snake := [⟨0, 0⟩, ⟨0, 1⟩, ⟨0, 2⟩],
                   foods := [⟨5, 5, FoodType.HOTDOG⟩],
                   powerUp := some ⟨0, -1, PowerUpType.GHOST⟩ }

/-- C5 — counterexample. Consuming the GHOST (invulnerability) power-up is NOT
score-neutral: `src/index.tsx` runs `setScore(s => s + 500)` for every power-up
kind before dispatching on it, so the ghost pickup adds 500 points alongside its
10 s expiry; `part_000`'s `handlePowerUp` likewise adds 200 for GHOST (and 300
for BURGER). The claim's "only sets an expiry timestamp (no score change)" fails
on both variants. -/
theorem power_up_score_counterexample :
    (IndexTsx.updateGameLogic o0 1000 c5state).score = 500 ∧
    (IndexTsx.updateGameLogic o0 1000 c5state).ghostModeEndTime = 11000 ∧
    (Part000.updateGameLogic o0 1000 c5state).score = 200 ∧
    (Part000.updateGameLogic o0 1000 c5state).ghostModeEndTime = 11000 ∧
    c5state.score = 0 := by
  refine ⟨by decide, by decide, by decide, by decide, by decide⟩

/-- C5 (amended): on a PLAYING tick with no crash and no food at `nextHead` that
consumes the live power-up, exactly one timed effect is applied according to the
kind — GHOST arms a `now + 10000` ghost expiry, BURGER arms a `now + 8000` boost
expiry plus a cosmetic pulse (1 s in `index.tsx`, 2 s in `part_000`), MUSTARD
leaves all timers alone — the power-up slot is cleared and the tail is still
removed (the snake length is unchanged); but every consumption ALSO adds points:
a flat 500 in `index.tsx` for all kinds, and 500/200/300 for
MUSTARD/GHOST/BURGER in `part_000`. -/
theorem power_up_effects_amended :
    (∀ (o : SpawnOracle) (now : Int) (s : GameSim) (p : PowerUp),
      s.gameState = GState.PLAYING →
      (IndexTsx.hitWall (tickNextHead s) ||
        (IndexTsx.hitSelf s.snake (tickNextHead s) && decide (now > s.ghostModeEndTime))) = false →
      s.foods.findIdx? (fun f => f.x == (tickNextHead s).x && f.z == (tickNextHead s).z) = none →
      s.powerUp = some p →
      (p.x == (tickNextHead s).x && p.z == (tickNextHead s).z) = true →
      (IndexTsx.updateGameLogic o now s).score = s.score + 500 ∧
      (IndexTsx.updateGameLogic o now s).snake.length = s.snake.length ∧
      (IndexTsx.updateGameLogic o now s).powerUp = none ∧
      (p.type = PowerUpType.MUSTARD →
        (IndexTsx.updateGameLogic o now s).ghostModeEndTime = s.ghostModeEndTime ∧
        (IndexTsx.updateGameLogic o now s).speedBoostEndTime = s.speedBoostEndTime ∧
        (IndexTsx.updateGameLogic o now s).dogPulseEndTime = s.dogPulseEndTime) ∧
      (p.type = PowerUpType.GHOST →
        (IndexTsx.updateGameLogic o now s).ghostModeEndTime = now + 10000 ∧
        (IndexTsx.updateGameLogic o now s).speedBoostEndTime = s.speedBoostEndTime) ∧
      (p.type = PowerUpType.BURGER →
        (IndexTsx.updateGameLogic o now s).speedBoostEndTime = now + 8000 ∧
        (IndexTsx.updateGameLogic o now s).dogPulseEndTime = now + 1000 ∧
        (IndexTsx.updateGameLogic o now s).ghostModeEndTime = s.ghostModeEndTime)) ∧
    (∀ (o : SpawnOracle) (now : Int) (s : GameSim) (p : PowerUp),
      s.gameState = GState.PLAYING →
      ¬ s.timeLeftMs - 100 ≤ 0 →
      Part000.hitWall (tickNextHead s) = false →
      (!(decide (now < s.ghostModeEndTime)) && Part000.hitSelf s.snake (tickNextHead s)) = false →
      s.foods.findIdx? (fun f => f.x == (tickNextHead s).x && f.z == (tickNextHead s).z) = none →
      s.powerUp = some p →
      (p.x == (tickNextHead s).x && p.z == (tickNextHead s).z) = true →
      (Part000.updateGameLogic o now s).score = s.score +
        (if p.type = PowerUpType.MUSTARD then 500
         else if p.type = PowerUpType.GHOST then 200 else 300) ∧
      (Part000.updateGameLogic o now s).snake.length = s.snake.length ∧
      (Part000.updateGameLogic o now s).powerUp = none ∧
      (p.type = PowerUpType.MUSTARD →
        (Part000.updateGameLogic o now s).ghostModeEndTime = s.ghostModeEndTime ∧
        (Part000.updateGameLogic o now s).speedBoostEndTime = s.speedBoostEndTime) ∧
      (p.type = PowerUpType.GHOST →
        (Part000.updateGameLogic o now s).ghostModeEndTime = now + 10000) ∧
      (p.type = PowerUpType.BURGER →
        (Part000.updateGameLogic o now s).speedBoostEndTime = now + 8000 ∧
        (Part000.updateGameLogic o now s).dogPulseEndTime = now + 2000)) := by
  constructor
  · intro o now s p hps hcond hfind hpu hat
    rw [IndexTsx.updateGameLogic_nofood o now s hcond hfind]
    have hpu1 : ({ s with direction := tickDirection s, moveQueue := s.moveQueue.tail,
                          snake := ((tickNextHead s) :: s.snake).dropLast } : GameSim).powerUp =
        some p := hpu
    have hhit := IndexTsx.powerUpStep_hit now (tickNextHead s) _ p hpu1 hat
    unfold IndexTsx.afterMove
    rw [hhit]
    obtain ⟨px, pz, pt⟩ := p
    cases pt <;>
      simp [IndexTsx.timerStep_score, IndexTsx.timerStep_snake,
        IndexTsx.timerStep_powerUp, IndexTsx.timerStep_ghostModeEndTime,
        IndexTsx.timerStep_speedBoostEndTime, IndexTsx.timerStep_dogPulseEndTime,
        List.length_dropLast]
  · intro o now s p hps ht hw hs hfind hpu hat
    rw [Part000.p0_updateGameLogic_nofood o now s ht hw hs hfind]
    rw [Part000.afterMove_not_grown]
    have hpu1 : ({ s with timeLeftMs := s.timeLeftMs - 100, direction := tickDirection s,
                          moveQueue := s.moveQueue.tail } : GameSim).powerUp = some p := hpu
    have hhit := Part000.p0_powerUpStep_hit now (tickNextHead s) _ p hpu1 hat
    rw [hhit]
    obtain ⟨px, pz, pt⟩ := p
    cases pt <;>
      unfold Part000.handlePowerUp <;>
      simp [List.length_dropLast]

/-- Witness for C5 (amended): applied to `c5state` (GHOST at `nextHead`) at
`now = 1000`, giving +500 points and a ghost expiry of 11000 in `index.tsx`. -/
theorem power_up_effects_amended_witness :
    (IndexTsx.updateGameLogic o0 1000 c5state).score = c5state.score + 500 ∧
    (IndexTsx.updateGameLogic o0 1000 c5state).ghostModeEndTime = 1000 + 10000 :=
  ⟨(power_up_effects_amended.1 o0 1000 c5state ⟨0, -1, PowerUpType.GHOST⟩
      rfl (by decide) (by decide) (by decide) (by decide)).1,
   ((power_up_effects_amended.1 o0 1000 c5state ⟨0, -1, PowerUpType.GHOST⟩
      rfl (by decide) (by decide) (by decide) (by decide)).2.2.2.2.1 rfl).1⟩

section AfterMoveProjections

lemma IndexTsx.afterMove_snake (now : Int) (nh : Position) (x : GameSim) :
    (IndexTsx.afterMove now nh x).snake = x.snake :=
  (IndexTsx.afterMove_parts now nh x).1

lemma IndexTsx.afterMove_foods (now : Int) (nh : Position) (x : GameSim) :
    (IndexTsx.afterMove now nh x).foods = x.foods :=
  (IndexTsx.afterMove_parts now nh x).2.1

lemma IndexTsx.afterMove_moveInterval (now : Int) (nh : Position) (x : GameSim) :
    (IndexTsx.afterMove now nh x).moveInterval = x.moveInterval :=
  (IndexTsx.afterMove_parts now nh x).2.2.1

lemma IndexTsx.afterMove_level (now : Int) (nh : Position) (x : GameSim) :
    (IndexTsx.afterMove now nh x).level = x.level :=
  (IndexTsx.afterMove_parts now nh x).2.2.2.1

lemma IndexTsx.afterMove_timeLeftMs (now : Int) (nh : Position) (x : GameSim) :
    (IndexTsx.afterMove now nh x).timeLeftMs = x.timeLeftMs - x.moveInterval :=
  (IndexTsx.afterMove_parts now nh x).2.2.2.2.1

lemma IndexTsx.afterMove_gameState (now : Int) (nh : Position) (x : GameSim) :
    (IndexTsx.afterMove now nh x).gameState =
      (if x.timeLeftMs - x.moveInterval ≤ 0 then GState.LEVEL_TRANSITION else x.gameState) :=
  (IndexTsx.afterMove_parts now nh x).2.2.2.2.2.1

lemma Part000.p0_afterMove_snake (now : Int) (nh : Position) (grown : Bool)
    (ns : List Position) (x : GameSim) :
    (Part000.afterMove now nh grown ns x).snake = (if grown then ns else ns.dropLast) :=
  (Part000.p0_afterMove_parts now nh grown ns x).1

lemma Part000.p0_afterMove_foods (now : Int) (nh : Position) (grown : Bool)
    (ns : List Position) (x : GameSim) :
    (Part000.afterMove now nh grown ns x).foods = x.foods :=
  (Part000.p0_afterMove_parts now nh grown ns x).2.1

lemma Part000.p0_afterMove_moveInterval (now : Int) (nh : Position) (grown : Bool)
    (ns : List Position) (x : GameSim) :
    (Part000.afterMove now nh grown ns x).moveInterval = x.moveInterval :=
  (Part000.p0_afterMove_parts now nh grown ns x).2.2.1

lemma Part000.p0_afterMove_timeLeftMs (now : Int) (nh : Position) (grown : Bool)
    (ns : List Position) (x : GameSim) :
    (Part000.afterMove now nh grown ns x).timeLeftMs = x.timeLeftMs :=
  (Part000.p0_afterMove_parts now nh grown ns x).2.2.2.2.1

lemma Part000.p0_afterMove_gameState (now : Int) (nh : Position) (grown : Bool)
    (ns : List Position) (x : GameSim) :
    (Part000.afterMove now nh grown ns x).gameState = x.gameState :=
  (Part000.p0_afterMove_parts now nh grown ns x).2.2.2.2.2.1

end AfterMoveProjections

lemma Part000.updateGameLogic_timeLeft (o : SpawnOracle) (now : Int) (s : GameSim) :
    (Part000.updateGameLogic o now s).timeLeftMs = s.timeLeftMs - 100 := by
  by_cases ht : s.timeLeftMs - 100 ≤ 0
  · rw [Part000.updateGameLogic_timer o now s ht]
  · by_cases hw : Part000.hitWall (tickNextHead s) = true
    · rw [Part000.updateGameLogic_wall o now s ht hw]
    · rw [Bool.not_eq_true] at hw
      by_cases hb : (!(decide (now < s.ghostModeEndTime)) &&
          Part000.hitSelf s.snake (tickNextHead s)) = true
      · rw [Part000.updateGameLogic_self o now s ht hw hb]
      · rw [Bool.not_eq_true] at hb
        rcases hfind : s.foods.findIdx?
            (fun f => f.x == (tickNextHead s).x && f.z == (tickNextHead s).z) with _ | i
        · rw [Part000.p0_updateGameLogic_nofood o now s ht hw hb hfind,
            Part000.p0_afterMove_timeLeftMs]
        · rw [Part000.p0_updateGameLogic_food o now s i ht hw hb hfind,
            Part000.p0_afterMove_timeLeftMs, Part000.spawnPowerUp_timeLeftMs,
            Part000.spawnFoodGo_timeLeftMs]

lemma Part000.resetGame_timeLeftMs (o : SpawnOracle) (lvl : Nat) (s : GameSim) :
    (Part000.resetGame o lvl s).timeLeftMs = 25000 := by
  unfold Part000.resetGame
  by_cases hl : lvl = 1
  · simp only [if_pos hl, Part000.spawnFoodGo_timeLeftMs]
  · simp only [if_neg hl, Part000.spawnFoodGo_timeLeftMs]

lemma Part000.resetGame_baseLevelSpeed (o : SpawnOracle) (lvl : Nat) (s : GameSim) :
    (Part000.resetGame o lvl s).baseLevelSpeed = max 80 (200 - ((lvl : Int) - 1) * 20) := by
  unfold Part000.resetGame
  by_cases hl : lvl = 1
  · simp only [if_pos hl, Part000.spawnFoodGo_baseLevelSpeed]
  · simp only [if_neg hl, Part000.spawnFoodGo_baseLevelSpeed]

lemma Part000.resetGame_moveInterval (o : SpawnOracle) (lvl : Nat) (s : GameSim) :
    (Part000.resetGame o lvl s).moveInterval = max 80 (200 - ((lvl : Int) - 1) * 20) := by
  unfold Part000.resetGame
  by_cases hl : lvl = 1
  · simp only [if_pos hl, Part000.spawnFoodGo_moveInterval]
  · simp only [if_neg hl, Part000.spawnFoodGo_moveInterval]

/-- A state with an armed speed boost: the gate interval is the boosted 60 ms,
the base interval 200 ms. -/
def c7state : GameSim := { baseState with speedBoostEndTime := 999999 }

/-- C7 — counterexample. With a speed boost active the tick is gated by the
effective 60 ms interval, but `index.tsx` still decrements the countdown by the
BASE interval (`moveIntervalRef.current / 1000` = 200 ms here), and `part_000`
decrements a fixed 0.1 s (100 ms) per tick — neither decrements by "the
effective interval that gated the tick" as claimed. -/
theorem countdown_decrement_counterexample :
    effectiveInterval 0 c7state = 60 ∧
    c7state.moveInterval = 200 ∧
    (IndexTsx.updateGameLogic o0 0 c7state).timeLeftMs = 25000 - 200 ∧
    (Part000.updateGameLogic o0 0 c7state).timeLeftMs = 25000 - 100 := by
  refine ⟨by decide, by decide, by decide, by decide⟩

/-- C7 (amended): (a) a non-crashing `index.tsx` tick always decrements the
countdown by the tick's resulting BASE interval (the `moveIntervalRef` value
after any food tightening — never the boost-gated 60 ms), and enters
LEVEL_TRANSITION exactly when the decremented countdown is ≤ 0; (b) the
deferred `nextLevel` callback then increments the level by exactly 1, resets
the countdown to 25 s, lowers the base interval by 15 ms floored at 50, and
returns to PLAYING; (c) every `part_000` tick decrements the countdown by a
fixed 100 ms and enters LEVEL_TRANSITION when it reaches ≤ 0; (d) the deferred
`startLevel(level+1)` callback of `part_000` increments the level by 1, resets
the countdown, recomputes the base interval as `max 80 (200 - 20·(lvl-1))`, and
returns to PLAYING. -/
theorem countdown_level_transition_amended :
    (∀ (o : SpawnOracle) (now : Int) (s : GameSim), s.gameState = GState.PLAYING →
      (IndexTsx.hitWall (tickNextHead s) ||
        (IndexTsx.hitSelf s.snake (tickNextHead s) && decide (now > s.ghostModeEndTime))) = false →
      (IndexTsx.updateGameLogic o now s).timeLeftMs =
        s.timeLeftMs - (IndexTsx.updateGameLogic o now s).moveInterval ∧
      ((IndexTsx.updateGameLogic o now s).gameState = GState.LEVEL_TRANSITION ↔
        s.timeLeftMs - (IndexTsx.updateGameLogic o now s).moveInterval ≤ 0)) ∧
    (∀ (o : SpawnOracle) (s : GameSim),
      (IndexTsx.nextLevelTimeout o s).level = s.level + 1 ∧
      (IndexTsx.nextLevelTimeout o s).timeLeftMs = 25000 ∧
      (IndexTsx.nextLevelTimeout o s).baseLevelSpeed = max 50 (s.baseLevelSpeed - 15) ∧
      (IndexTsx.nextLevelTimeout o s).moveInterval = max 50 (s.baseLevelSpeed - 15) ∧
      (IndexTsx.nextLevelTimeout o s).gameState = GState.PLAYING) ∧
    (∀ (o : SpawnOracle) (now : Int) (s : GameSim),
      (Part000.updateGameLogic o now s).timeLeftMs = s.timeLeftMs - 100 ∧
      (s.timeLeftMs - 100 ≤ 0 →
        (Part000.updateGameLogic o now s).gameState = GState.LEVEL_TRANSITION)) ∧
    (∀ (o : SpawnOracle) (s : GameSim),
      (Part000.startLevelTimeout o s).level = s.level + 1 ∧
      (Part000.startLevelTimeout o s).timeLeftMs = 25000 ∧
      (Part000.startLevelTimeout o s).baseLevelSpeed =
        max 80 (200 - (((s.level + 1 : Nat) : Int) - 1) * 20) ∧
      (Part000.startLevelTimeout o s).moveInterval =
        max 80 (200 - (((s.level + 1 : Nat) : Int) - 1) * 20) ∧
      (Part000.startLevelTimeout o s).gameState = GState.PLAYING) := by
  refine ⟨?_, ?_, ?_, ?_⟩
  · intro o now s hps hcond
    rcases hfind : s.foods.findIdx?
        (fun f => f.x == (tickNextHead s).x && f.z == (tickNextHead s).z) with _ | i
    · rw [IndexTsx.updateGameLogic_nofood o now s hcond hfind,
        IndexTsx.afterMove_timeLeftMs, IndexTsx.afterMove_moveInterval,
        IndexTsx.afterMove_gameState]
      dsimp only
      rw [hps]
      constructor
      · rfl
      · split_ifs with hc
        · exact ⟨fun _ => hc, fun _ => rfl⟩
        · exact ⟨fun hlt => absurd hlt (by decide), fun hle => absurd hle hc⟩
    · rw [IndexTsx.updateGameLogic_food o now s i hcond hfind,
        IndexTsx.afterMove_timeLeftMs, IndexTsx.afterMove_moveInterval,
        IndexTsx.afterMove_gameState]
      dsimp only
      rw [IndexTsx.spawnFood_timeLeftMs, IndexTsx.spawnFood_moveInterval,
        IndexTsx.spawnFood_gameState]
      dsimp only
      rw [hps]
      constructor
      · rfl
      · split_ifs with hc
        · exact ⟨fun _ => hc, fun _ => rfl⟩
        · exact ⟨fun hlt => absurd hlt (by decide), fun hle => absurd hle hc⟩
  · intro o s
    refine ⟨?_, ?_, ?_, ?_, ?_⟩ <;>
      simp only [IndexTsx.nextLevelTimeout_eq, IndexTsx.spawnFood_level,
        IndexTsx.spawnFood_timeLeftMs, IndexTsx.spawnFood_baseLevelSpeed,
        IndexTsx.spawnFood_moveInterval]
  · intro o now s
    refine ⟨Part000.updateGameLogic_timeLeft o now s, ?_⟩
    intro ht
    rw [Part000.updateGameLogic_timer o now s ht]
  · intro o s
    refine ⟨?_, ?_, ?_, ?_, ?_⟩
    · unfold Part000.startLevelTimeout Part000.startLevel
      rw [Part000.resetGame_level]
    · unfold Part000.startLevelTimeout Part000.startLevel
      rw [Part000.resetGame_timeLeftMs]
    · unfold Part000.startLevelTimeout Part000.startLevel
      rw [Part000.resetGame_baseLevelSpeed]
    · unfold Part000.startLevelTimeout Part000.startLevel
      rw [Part000.resetGame_moveInterval]
    · unfold Part000.startLevelTimeout Part000.startLevel
      rw [Part000.resetGame_gameState]

/-- Witness for C7 (amended): at `c7state` (boost armed, base 200 ms) a tick at
time 0 leaves 24800 ms — the base-interval decrement — and does not enter
LEVEL_TRANSITION; the deferred callback from `baseState` reaches level 2 with a
185 ms base. -/
theorem countdown_level_transition_amended_witness :
    (IndexTsx.updateGameLogic o0 0 c7state).timeLeftMs =
      25000 - (IndexTsx.updateGameLogic o0 0 c7state).moveInterval ∧
    (IndexTsx.nextLevelTimeout o0 baseState).level = 2 ∧
    (Part000.updateGameLogic o0 0 c7state).timeLeftMs = 25000 - 100 :=
  ⟨(countdown_level_transition_amended.1 o0 0 c7state rfl (by decide)).1,
   (countdown_level_transition_amended.2.1 o0 baseState).1,
   (countdown_level_transition_amended.2.2.1 o0 0 c7state).1⟩

lemma findIdxSomeBound {α : Type} (p : α → Bool) :
    ∀ (l : List α) (start i : Nat), List.findIdx? p l start = some i →
      start ≤ i ∧ i - start < l.length := by
  intro l
  induction l with
  | nil =>
    intro start i h
    rw [List.findIdx?_nil] at h
    exact absurd h (by simp)
  | cons a as ih =>
    intro start i h
    rw [List.findIdx?_cons] at h
    by_cases hp : p a = true
    · rw [if_pos hp] at h
      injection h with h
      subst h
      exact ⟨le_refl _, by simp⟩
    · rw [if_neg hp] at h
      obtain ⟨h1, h2⟩ := ih (start + 1) i h
      refine ⟨by omega, ?_⟩
      simp only [List.length_cons]
      omega

lemma IndexTsx.afterMove_score_miss (now : Int) (nh : Position) (x : GameSim)
    (h : ∀ p, x.powerUp = some p → (p.x == nh.x && p.z == nh.z) = false) :
    (IndexTsx.afterMove now nh x).score = x.score := by
  unfold IndexTsx.afterMove
  rcases hpu : x.powerUp with _ | p
  · rw [IndexTsx.powerUpStep_none now nh x hpu, IndexTsx.timerStep_score]
  · rw [IndexTsx.powerUpStep_miss now nh x p hpu (h p hpu), IndexTsx.timerStep_score]

lemma Part000.p0_afterMove_score_miss (now : Int) (nh : Position) (grown : Bool)
    (ns : List Position) (x : GameSim)
    (h : ∀ p, x.powerUp = some p → (p.x == nh.x && p.z == nh.z) = false) :
    (Part000.afterMove now nh grown ns x).score = x.score := by
  unfold Part000.afterMove
  rcases hpu : x.powerUp with _ | p
  · rw [Part000.p0_powerUpStep_none now nh x hpu]
    cases grown <;> rfl
  · rw [Part000.p0_powerUpStep_miss now nh x p hpu (h p hpu)]
    cases grown <;> rfl

/-- Level-1 state with the full complement of 5 foods, one of them (a HOTDOG)
directly ahead at `(0,-1)` — and, stacked on the same cell, the live MUSTARD
power-up (reachable via the spawner's documented retry-exhaustion fallback). -/
def c3state : GameSim :=
  { baseState with snake := [⟨0, 0⟩, ⟨0, 1⟩, ⟨0, 2⟩],
                   foods := [⟨0, -1, FoodType.HOTDOG⟩, ⟨5, 5, FoodType.HOTDOG⟩,
                             ⟨6, 5, FoodType.HOTDOG⟩, ⟨7, 5, FoodType.HOTDOG⟩,
                             ⟨8, 5, FoodType.HOTDOG⟩],
                   powerUp := some ⟨0, -1, PowerUpType.MUSTARD⟩ }

/-- C3 — counterexample. On a tick whose `nextHead` holds a PRIMARY (HOTDOG)
food, the claim says the score increases by exactly 100 — but when the live
power-up occupies the same cell (possible because `getRandomPosition` accepts
an occupied cell after 100 failed tries), `index.tsx` applies the food branch
AND the power-up branch in the same tick: the score rises by 600, not 100. -/
theorem food_tick_score_counterexample :
    c3state.foods.getD 0 ⟨0, 0, FoodType.HOTDOG⟩ = ⟨0, -1, FoodType.HOTDOG⟩ ∧
    tickNextHead c3state = ⟨0, -1⟩ ∧
    c3state.score = 0 ∧
    (IndexTsx.updateGameLogic o0 1000 c3state).score = 600 := by
  refine ⟨by decide, by decide, by decide, by decide⟩

/-- C3 (amended): on a PLAYING, non-crashing tick that eats the food at index
`i` — provided the live power-up does not share `nextHead`'s cell and no fresh
power-up is rolled during replenishment — both variants add exactly the food's
value (150 for FRIES, else 100) to the score, grow the snake by exactly one
segment (the tail is kept), tighten the tick interval by 2 ms floored at 50 ms,
and replenish the food list before the tick ends: `index.tsx` tops it back up
to `level × 5` (given it was full before), `part_000` spawns exactly one
replacement, restoring the previous count. On any non-crashing tick with no
food at `nextHead` the snake length is unchanged. (If the power-up does share
the cell, its bonus is also added the same tick — see the counterexample.) -/
theorem food_tick_amended :
    (∀ (o : SpawnOracle) (now : Int) (s : GameSim) (i : Nat),
      s.gameState = GState.PLAYING →
      (IndexTsx.hitWall (tickNextHead s) ||
        (IndexTsx.hitSelf s.snake (tickNextHead s) && decide (now > s.ghostModeEndTime))) = false →
      s.foods.findIdx? (fun f => f.x == (tickNextHead s).x && f.z == (tickNextHead s).z) = some i →
      (∀ p, s.powerUp = some p →
        (p.x == (tickNextHead s).x && p.z == (tickNextHead s).z) = false) →
      o.puRand = false →
      (IndexTsx.updateGameLogic o now s).score = s.score +
        (if (s.foods.getD i ⟨0, 0, FoodType.HOTDOG⟩).type = FoodType.FRIES
         then (150 : Int) else 100) ∧
      (IndexTsx.updateGameLogic o now s).snake.length = s.snake.length + 1 ∧
      (IndexTsx.updateGameLogic o now s).moveInterval = max 50 (s.moveInterval - 2) ∧
      (50 : Int) ≤ (IndexTsx.updateGameLogic o now s).moveInterval ∧
      (s.foods.length = s.level * 5 →
        (IndexTsx.updateGameLogic o now s).foods.length = s.level * 5)) ∧
    (∀ (o : SpawnOracle) (now : Int) (s : GameSim),
      (IndexTsx.hitWall (tickNextHead s) ||
        (IndexTsx.hitSelf s.snake (tickNextHead s) && decide (now > s.ghostModeEndTime))) = false →
      s.foods.findIdx? (fun f => f.x == (tickNextHead s).x && f.z == (tickNextHead s).z) = none →
      (IndexTsx.updateGameLogic o now s).snake.length = s.snake.length) ∧
    (∀ (o : SpawnOracle) (now : Int) (s : GameSim) (i : Nat),
      s.gameState = GState.PLAYING →
      ¬ s.timeLeftMs - 100 ≤ 0 →
      Part000.hitWall (tickNextHead s) = false →
      (!(decide (now < s.ghostModeEndTime)) && Part000.hitSelf s.snake (tickNextHead s)) = false →
      s.foods.findIdx? (fun f => f.x == (tickNextHead s).x && f.z == (tickNextHead s).z) = some i →
      (∀ p, s.powerUp = some p →
        (p.x == (tickNextHead s).x && p.z == (tickNextHead s).z) = false) →
      o.puRand = false →
      (Part000.updateGameLogic o now s).score = s.score +
        (if (s.foods.getD i ⟨0, 0, FoodType.HOTDOG⟩).type = FoodType.FRIES
         then (150 : Int) else 100) ∧
      (Part000.updateGameLogic o now s).snake.length = s.snake.length + 1 ∧
      (Part000.updateGameLogic o now s).moveInterval = max 50 (s.moveInterval - 2) ∧
      (50 : Int) ≤ (Part000.updateGameLogic o now s).moveInterval ∧
      (Part000.updateGameLogic o now s).foods.length = s.foods.length) ∧
    (∀ (o : SpawnOracle) (now : Int) (s : GameSim),
      ¬ s.timeLeftMs - 100 ≤ 0 →
      Part000.hitWall (tickNextHead s) = false →
      (!(decide (now < s.ghostModeEndTime)) && Part000.hitSelf s.snake (tickNextHead s)) = false →
      s.foods.findIdx? (fun f => f.x == (tickNextHead s).x && f.z == (tickNextHead s).z) = none →
      (Part000.updateGameLogic o now s).snake.length = s.snake.length) := by
  refine ⟨?_, ?_, ?_, ?_⟩
  · intro o now s i hps hcond hfind hpu hrand
    have hbound := findIdxSomeBound _ s.foods 0 i hfind
    rw [IndexTsx.updateGameLogic_food o now s i hcond hfind]
    set nh := tickNextHead s with hnh
    set s1 : GameSim :=
      { s with direction := tickDirection s, moveQueue := s.moveQueue.tail,
               score := s.score +
                 (if (s.foods.getD i ⟨0, 0, FoodType.HOTDOG⟩).type = FoodType.FRIES
                  then (150 : Int) else 100),
               moveInterval := max 50 (s.moveInterval - 2),
               foods := s.foods.eraseIdx i } with hs1
    refine ⟨?_, ?_, ?_, ?_, ?_⟩
    · obtain ⟨fs, hsp⟩ := IndexTsx.spawnFood_no_puRand o s1 hrand
      rw [hsp]
      have hmiss : ∀ p,
          ({ { s1 with foods := fs } with snake := nh :: s.snake } : GameSim).powerUp = some p →
          (p.x == nh.x && p.z == nh.z) = false := fun p hp => hpu p hp
      rw [IndexTsx.afterMove_score_miss now nh _ hmiss]
    · rw [IndexTsx.afterMove_snake]
      dsimp only
      simp
    · rw [IndexTsx.afterMove_moveInterval]
      dsimp only
      rw [IndexTsx.spawnFood_moveInterval, hs1]
    · rw [IndexTsx.afterMove_moveInterval]
      dsimp only
      rw [IndexTsx.spawnFood_moveInterval, hs1]
      exact le_max_left 50 _
    · intro hlen
      rw [IndexTsx.afterMove_foods]
      dsimp only
      have hlt : s1.foods.length < s1.level * 5 := by
        rw [hs1]
        dsimp only
        rw [List.length_eraseIdx, if_pos (by omega)]
        omega
      rw [IndexTsx.spawnFood_length o s1 hlt, hs1]
  · intro o now s hcond hfind
    rw [IndexTsx.updateGameLogic_nofood o now s hcond hfind, IndexTsx.afterMove_snake]
    dsimp only
    simp [List.length_dropLast]
  · intro o now s i hps ht hw hs0 hfind hpu hrand
    have hbound := findIdxSomeBound _ s.foods 0 i hfind
    rw [Part000.p0_updateGameLogic_food o now s i ht hw hs0 hfind]
    set nh := tickNextHead s with hnh
    set s1 : GameSim :=
      { s with timeLeftMs := s.timeLeftMs - 100, direction := tickDirection s,
               moveQueue := s.moveQueue.tail,
               score := s.score +
                 (if (s.foods.getD i ⟨0, 0, FoodType.HOTDOG⟩).type = FoodType.FRIES
                  then (150 : Int) else 100),
               moveInterval := max 50 (s.moveInterval - 2),
               foods := s.foods.eraseIdx i } with hs1
    rw [Part000.spawnPowerUp_no_puRand o _ hrand]
    have hmiss : ∀ p, (Part000.spawnFoodGo o 0 1 s1).powerUp = some p →
        (p.x == nh.x && p.z == nh.z) = false := by
      intro p hp
      rw [Part000.spawnFoodGo_powerUp] at hp
      exact hpu p hp
    refine ⟨?_, ?_, ?_, ?_, ?_⟩
    · rw [Part000.p0_afterMove_score_miss now nh true _ _ hmiss,
        Part000.spawnFoodGo_score, hs1]
    · rw [Part000.p0_afterMove_snake]
      simp
    · rw [Part000.p0_afterMove_moveInterval, Part000.spawnFoodGo_moveInterval, hs1]
    · rw [Part000.p0_afterMove_moveInterval, Part000.spawnFoodGo_moveInterval, hs1]
      exact le_max_left 50 _
    · rw [Part000.p0_afterMove_foods, Part000.spawnFoodGo_length, hs1]
      dsimp only
      rw [List.length_eraseIdx, if_pos (by omega)]
      omega
  · intro o now s ht hw hs0 hfind
    rw [Part000.p0_updateGameLogic_nofood o now s ht hw hs0 hfind, Part000.p0_afterMove_snake]
    simp [List.length_dropLast]

/-- The coincidence-free food scenario: 5 foods at level 1, one directly ahead,
no live power-up. -/
def c3wit : GameSim :=
  { baseState with snake := [⟨0, 0⟩, ⟨0, 1⟩, ⟨0, 2⟩],
                   foods := [⟨0, -1, FoodType.HOTDOG⟩, ⟨5, 5, FoodType.HOTDOG⟩,
                             ⟨6, 5, FoodType.HOTDOG⟩, ⟨7, 5, FoodType.HOTDOG⟩,
                             ⟨8, 5, FoodType.HOTDOG⟩] }

/-- Witness for C3 (amended): eating the HOTDOG ahead scores +100, grows the
snake from 3 to 4 segments, and the food count is back at `1 × 5 = 5`. -/
theorem food_tick_amended_witness :
    (IndexTsx.updateGameLogic o0 1000 c3wit).score = 100 ∧
    (IndexTsx.updateGameLogic o0 1000 c3wit).snake.length = 4 ∧
    (IndexTsx.updateGameLogic o0 1000 c3wit).foods.length = 5 := by
  have h := food_tick_amended.1 o0 1000 c3wit 0 rfl (by decide) (by decide)
    (fun p hp => by simp [c3wit, baseState] at hp) rfl
  refine ⟨?_, ?_, ?_⟩
  · have h1 := h.1
    simpa using h1
  · have h2 := h.2.1
    simpa using h2
  · have h5 := h.2.2.2.2 (by decide)
    simpa using h5
